import Mathlib

/-!
# Housing-Property-Agent-MCP: OTP engine and invite engine

A shallow embedding of

* `services/identity/internal/services/otp.go` (OTP issuance, verification and
  rate limiting against a Redis store), with `utils/otp.go`, `utils/phone.go`,
  `services/sms.go`, `services/user.go`, `handlers/auth.go`, `config/config.go`
  and the wiring of `main.go`;
* `services/orchestrator/internal/services/invite.go` (invite creation, and
  acceptance inside a SQL transaction) and `room.go` (room creation), with the
  schema of `database/database.go`.

Conventions.

* Instants and durations are natural numbers of nanoseconds, the unit of Go's
  `time.Duration`.  One service call reads the clock as one instant `now`.
* The Redis server and the SQL database are external to the repository.  They
  are modelled by their documented behaviour, as explicit state threaded
  through every call.
* A client-library call may fail for reasons outside the program (connection
  lost, timeout).  `Faults` is the oracle of those failures: `flt i` is the
  failure, if any, of the `i`-th store round trip that a service call makes.
-/

/-- Errors raised by the libraries the services call. -/
inductive LibError where
  /-- the client library could not complete the round trip -/
  | net (detail : String)
  /-- Redis `INCR` or `strconv.Atoi` on a value that is no 64-bit integer -/
  | notInteger
  /-- `encoding/json` could not decode the text into the target struct -/
  | badJSON
  /-- the `crypto/rand` reader failed -/
  | entropy
  /-- the SQL store rejected a statement because of the named constraint -/
  | violates (name : String)
  deriving DecidableEq, Repr

/-- A Go `error` built by `fmt.Errorf`: a fixed text, or a fixed text that
wraps a library error with `%w`. -/
inductive Error where
  | plain (text : String)
  | wrap (text : String) (cause : LibError)
  deriving DecidableEq, Repr

/-- Oracle of the store round trips that fail, by position within one call. -/
abbrev Faults := Nat → Option LibError

/-- Every round trip reaches the store. -/
def noFaults : Faults := fun _ => none

/-- The text of a library error, as `err.Error()` prints it.  The program
only passes these texts on. -/
def LibError.text : LibError → String
  | .net detail => detail
  | .notInteger => "ERR value is not an integer or out of range"
  | .badJSON => "json: cannot unmarshal into Go value"
  | .entropy => "crypto/rand: read failed"
  | .violates name => "pq: violates constraint " ++ name

/-- `err.Error()` of an error built by `fmt.Errorf`. -/
def Error.text : Error → String
  | .plain text => text
  | .wrap text cause => text ++ ": " ++ cause.text

namespace Identity

/-- Go `time.Minute`, in nanoseconds. -/
def Minute : Nat := 60 * 1000000000

/-- Record `models.OTPData`. -/
structure OTPData where
  Code : String
  Attempts : Int
  ExpiresAt : Nat
  CreatedAt : Nat
  deriving DecidableEq, Repr

/-- What a Redis string value holds, by the way the service reads it back:
the JSON text `json.Marshal` produces for an `OTPData`, the decimal text of
an integer, or any other text. -/
inductive RValue where
  | otp (d : OTPData)
  | int (n : Int)
  | raw (text : String)
  deriving DecidableEq, Repr

/-- A Redis key's value with its expiry instant (`none`: no expiry). -/
structure Entry where
  val : RValue
  expireAt : Option Nat
  deriving DecidableEq, Repr

/-- The Redis keyspace. -/
abbrev Store := String → Option Entry

/-- The empty keyspace. -/
def Store.empty : Store := fun _ => none

/-- Redis keeps a key as long as the server clock is not past its expiry. -/
def Entry.live (e : Entry) (now : Nat) : Bool :=
  match e.expireAt with
  | none => true
  | some t => decide (now ≤ t)

/-- The entry a command sees at `key`: expired keys are absent. -/
def Store.find (s : Store) (now : Nat) (key : String) : Option Entry :=
  match s key with
  | some e => if e.live now then some e else none
  | none => none

/-- Keyspace with `key` bound to `e`. -/
def Store.put (s : Store) (key : String) (e : Entry) : Store :=
  fun k => if k = key then some e else s k

/-- Keyspace without `key`. -/
def Store.erase (s : Store) (key : String) : Store :=
  fun k => if k = key then none else s k

/-- Reply of a go-redis read command: a value, `redis.Nil`, or an error. -/
inductive Reply (α : Type) where
  | ok (v : α)
  | nil
  | err (e : LibError)
  deriving Repr

/-- Redis `GET`. -/
def Redis.Get (f : Option LibError) (s : Store) (now : Nat) (key : String) :
    Reply RValue :=
  match f with
  | some e => .err e
  | none =>
    match s.find now key with
    | some e => .ok e.val
    | none => .nil

/-- Redis `SET key value` with go-redis expiration `ttl` (`0`: keep forever). -/
def Redis.Set (f : Option LibError) (s : Store) (now : Nat) (key : String)
    (v : RValue) (ttl : Nat) : Option LibError × Store :=
  match f with
  | some e => (some e, s)
  | none =>
    (none, s.put key { val := v, expireAt := if ttl = 0 then none else some (now + ttl) })

/-- Redis `DEL key`. -/
def Redis.Del (f : Option LibError) (s : Store) (key : String) :
    Option LibError × Store :=
  match f with
  | some e => (some e, s)
  | none => (none, s.erase key)

/-- Smallest Redis / Go `int64`. -/
def minInt64 : Int := -9223372036854775808

/-- Largest Redis / Go `int64`. -/
def maxInt64 : Int := 9223372036854775807

/-- The 64-bit integer a value's text parses to, for Redis `INCR` and for
`strconv.Atoi` alike. -/
def RValue.asInt64 : RValue → Option Int
  | .int n => if minInt64 ≤ n ∧ n ≤ maxInt64 then some n else none
  | _ => none

/-- Redis `INCR key` as run by the server: a missing (or expired) key counts
from 0 and gets no expiry, an integer keeps its expiry. -/
def Redis.Incr (s : Store) (now : Nat) (key : String) : Option LibError × Store :=
  match s.find now key with
  | none => (none, s.put key { val := .int 1, expireAt := none })
  | some e =>
    match e.val.asInt64 with
    | none => (some .notInteger, s)
    | some n =>
      if n = maxInt64 then (some .notInteger, s)
      else (none, s.put key { val := .int (n + 1), expireAt := e.expireAt })

/-- Redis `EXPIRE key ttl` as run by the server. -/
def Redis.Expire (s : Store) (now : Nat) (key : String) (ttl : Nat) : Store :=
  match s.find now key with
  | none => s
  | some e => s.put key { val := e.val, expireAt := some (now + ttl) }

/-- `StringCmd.Int`: the reply of `GET` parsed by `strconv.Atoi`. -/
def Reply.Int : Reply RValue → Reply Int
  | .ok v =>
    match v.asInt64 with
    | some n => .ok n
    | none => .err .notInteger
  | .nil => .nil
  | .err e => .err e

/-- `json.Unmarshal` of a stored text into `models.OTPData`. -/
def unmarshalOTP : RValue → Option OTPData
  | .otp d => some d
  | _ => none

/-- `fmt.Sprintf("%06d", n)` for a non-negative `n`. -/
def sprintf06d (n : Nat) : String :=
  let d := Nat.repr n
  String.mk (List.replicate (6 - d.length) '0') ++ d

/-- `utils.GenerateOTP`; `rnd` is what `rand.Int(rand.Reader, max - min)`
returns (`none`: the reader failed). -/
def GenerateOTP (rnd : Option Nat) : Except LibError String :=
  let min := 100000
  match rnd with
  | none => .error .entropy
  | some n =>
    let otp := n + min
    .ok (sprintf06d otp)

/-- Upper bound handed to `rand.Int` by `GenerateOTP`: `max - min`. -/
def randBound : Nat := 999999 - 100000

/-- `services.OTPService`, without its Redis handle. -/
structure OTPService where
  secret : String
  expiry : Nat
  maxAttempts : Int
  deriving DecidableEq, Repr

/-- `services.NewOTPService`. -/
def NewOTPService (secret : String) : OTPService :=
  { secret := secret, expiry := 5 * Minute, maxAttempts := 5 }

/-- `fmt.Sprintf("otp:%s", phone)`. -/
def otpKey (phone : String) : String := "otp:" ++ phone

/-- `fmt.Sprintf("rate_limit:%s", phone)`. -/
def rateKey (phone : String) : String := "rate_limit:" ++ phone

/-- `OTPService.GenerateAndStoreOTP`: the Go result pair and the keyspace
after the call. -/
def OTPService.GenerateAndStoreOTP (svc : OTPService) (rnd : Option Nat)
    (flt : Faults) (s : Store) (now : Nat) (phone : String) :
    (String × Option Error) × Store :=
  match GenerateOTP rnd with
  | .error e => (("", some (.wrap "failed to generate OTP" e)), s)
  | .ok code =>
    let otpData : OTPData :=
      { Code := code, Attempts := 0, ExpiresAt := now + svc.expiry, CreatedAt := now }
    let key := otpKey phone
    match Redis.Set (flt 0) s now key (.otp otpData) svc.expiry with
    | (some e, s1) => (("", some (.wrap "failed to store OTP" e)), s1)
    | (none, s1) => ((code, none), s1)

/-- `OTPService.VerifyOTP`: the Go result pair and the keyspace after the
call.  The results of `Del` and of the final `Set` are dropped, as in the
source. -/
def OTPService.VerifyOTP (svc : OTPService) (flt : Faults) (s : Store) (now : Nat)
    (phone code : String) : (Bool × Option Error) × Store :=
  let key := otpKey phone
  match Redis.Get (flt 0) s now key with
  | .nil => ((false, some (.plain "OTP not found or expired")), s)
  | .err e => ((false, some (.wrap "failed to get OTP" e)), s)
  | .ok jsonData =>
    match unmarshalOTP jsonData with
    | none => ((false, some (.wrap "failed to unmarshal OTP data" .badJSON)), s)
    | some otpData =>
      if now > otpData.ExpiresAt then
        ((false, some (.plain "OTP expired")), (Redis.Del (flt 1) s key).2)
      else if otpData.Attempts ≥ svc.maxAttempts then
        ((false, some (.plain "max OTP attempts exceeded")), (Redis.Del (flt 1) s key).2)
      else
        let otpData := { otpData with Attempts := otpData.Attempts + 1 }
        if otpData.Code = code then
          ((true, none), (Redis.Del (flt 1) s key).2)
        else
          ((false, some (.plain "invalid OTP code")),
            (Redis.Set (flt 1) s now key (.otp otpData) svc.expiry).2)

/-- `OTPService.IsRateLimited`: the Go result pair and the keyspace after the
call (the call only sends `GET`). -/
def OTPService.IsRateLimited (_svc : OTPService) (flt : Faults) (s : Store) (now : Nat)
    (phone : String) : (Bool × Option Error) × Store :=
  let key := rateKey phone
  match (Redis.Get (flt 0) s now key).Int with
  | .err e => ((false, some (.wrap "failed to check rate limit" e)), s)
  | .nil => ((false, none), s)
  | .ok count =>
    if count = 0 then ((false, none), s)
    else ((decide (count ≥ 10), none), s)

/-- `OTPService.IncrementRateLimit`: the pipeline sends `INCR` and `EXPIRE` in
one round trip; the server runs both and `Exec` reports the first error. -/
def OTPService.IncrementRateLimit (_svc : OTPService) (flt : Faults) (s : Store)
    (now : Nat) (phone : String) : Option LibError × Store :=
  let key := rateKey phone
  match flt 0 with
  | some e => (some e, s)
  | none =>
    let r := Redis.Incr s now key
    (r.1, Redis.Expire r.2 now key Minute)

/-! ### `utils/phone.go` and `utils/otp.go`

Go's `len` and slice bounds count bytes.  They are rendered by
`String.utf8ByteSize` and by `String.extract`, which takes byte positions and
agrees with Go's slice wherever the positions fall between characters, as
they always do in text made of `+`, `*` and decimal digits. -/

/-- `utils.ValidateOTP`. -/
def ValidateOTP (code : String) : Bool :=
  if code.utf8ByteSize ≠ 6 then false
  else code.data.all (fun char => !(char < '0' || char > '9'))

/-- `regexp.MustCompile("\\D").ReplaceAllString(phone, "")`: the decimal
digits of `phone`, in order. -/
def stripNonDigits (phone : String) : String :=
  String.mk (phone.data.filter (fun c => c.isDigit))

/-- `utils.NormalizePhone`: the Go result pair. -/
def NormalizePhone (phone : String) : String × Option Error :=
  let digits := stripNonDigits phone
  if digits.utf8ByteSize = 10 then
    ("+1" ++ digits, none)
  else if digits.utf8ByteSize = 11 ∧ digits.get 0 = '1' then
    ("+" ++ digits, none)
  else if digits.utf8ByteSize > 11 then
    ("+" ++ digits, none)
  else
    ("", some (.plain ("invalid phone number format: " ++ phone)))

/-- `utils.HashPhone`; `sha256hex` is `hex.EncodeToString` of `sha256.Sum256`. -/
def HashPhone (sha256hex : String → String) (phone salt : String) : String :=
  sha256hex (phone ++ salt)

/-- `utils.MaskPhone`. -/
def MaskPhone (phone : String) : String :=
  if phone.utf8ByteSize < 8 then phone
  else
    let start := phone.extract 0 ⟨4⟩
    let tail := phone.extract ⟨phone.utf8ByteSize - 4⟩ ⟨phone.utf8ByteSize⟩
    let middle := String.mk (List.replicate (phone.utf8ByteSize - 8) '*')
    start ++ middle ++ tail

/-! ### `services/sms.go` and `services/user.go` -/

/-- One message handed to the Twilio API. -/
structure SMS where
  To : String
  From : String
  Body : String
  deriving DecidableEq, Repr

/-- `services.SMSService`, without its Twilio client. -/
structure SMSService where
  fromNumber : String
  deriving DecidableEq, Repr

/-- `services.NewSMSService`. -/
def NewSMSService (_accountSID _authToken fromNumber : String) : SMSService :=
  { fromNumber := fromNumber }

/-- `SMSService.SendOTP`: the error, if any, and the messages Twilio has
accepted.  Without a sender number the code is only logged.  `f` is the
failure, if any, of `CreateMessage`. -/
def SMSService.SendOTP (svc : SMSService) (f : Option LibError) (outbox : List SMS)
    (phone code : String) : Option Error × List SMS :=
  if svc.fromNumber = "" then (none, outbox)
  else
    let message :=
      "Your verification code is: " ++ code ++ ". This code will expire in 5 minutes."
    match f with
    | some e => (some (.wrap "failed to send SMS" e), outbox)
    | none => (none, outbox ++ [{ To := phone, From := svc.fromNumber, Body := message }])

/-- Record `models.User`. -/
structure User where
  ID : String
  PhoneE164 : String
  PhoneHash : String
  CreatedAt : Nat
  deriving DecidableEq, Repr

/-- The Redis keys of the user service, which never expire: "user:" + id holds
the JSON text of a user, "user_hash:" + hash holds a user id.  Their names
keep them apart from the keys of the OTP service. -/
structure UserStore where
  byID : String → Option User
  byHash : String → Option String

/-- No user stored. -/
def UserStore.empty : UserStore := { byID := fun _ => none, byHash := fun _ => none }

/-- `services.UserService`, without its Redis handle. -/
structure UserService where
  salt : String
  deriving DecidableEq, Repr

/-- `services.NewUserService`. -/
def NewUserService : UserService := { salt := "user-salt-key" }

/-- `UserService.GetUserByID`, its Redis round trip being the one numbered
`trip`. -/
def UserService.GetUserByID (_svc : UserService) (flt : Faults) (trip : Nat)
    (users : UserStore) (userID : String) : Option User × Option Error :=
  match flt trip with
  | some e => (none, some (.wrap "failed to get user" e))
  | none =>
    match users.byID userID with
    | none => (none, some (.plain "user not found"))
    | some user => (some user, none)

/-- `UserService.GetUserByPhoneHash`: the Go result pair and the number of
Redis round trips made. -/
def UserService.GetUserByPhoneHash (svc : UserService) (flt : Faults) (users : UserStore)
    (phoneHash : String) : (Option User × Option Error) × Nat :=
  match flt 0 with
  | some e => ((none, some (.wrap "failed to get user ID" e)), 1)
  | none =>
    match users.byHash phoneHash with
    | none => ((none, some (.plain "user not found")), 1)
    | some userID => (svc.GetUserByID flt 1 users userID, 2)

/-- `UserService.CreateUser`: the Go result pair and the user keys after the
call.  `uuid` is the text of the `uuid.New()` drawn for a new user. -/
def UserService.CreateUser (svc : UserService) (sha256hex : String → String)
    (flt : Faults) (users : UserStore) (now : Nat) (uuid : String) (phone : String) :
    (Option User × Option Error) × UserStore :=
  match NormalizePhone phone with
  | (_, some err) => ((none, some (.plain ("invalid phone number: " ++ err.text))), users)
  | (normalizedPhone, none) =>
    let phoneHash := HashPhone sha256hex normalizedPhone svc.salt
    match svc.GetUserByPhoneHash flt users phoneHash with
    | ((some existingUser, none), _) => ((some existingUser, none), users)
    | (_, trips) =>
      let user : User :=
        { ID := uuid, PhoneE164 := normalizedPhone, PhoneHash := phoneHash,
          CreatedAt := now }
      match flt trips with
      | some e => ((none, some (.wrap "failed to store user" e)), users)
      | none =>
        ((some user, none),
          { byID := fun k => if k = user.ID then some user else users.byID k,
            byHash := fun k => if k = phoneHash then some user.ID else users.byHash k })

/-! ### `handlers/auth.go` -/

/-- Record `models.OTPRequest`. -/
structure OTPRequest where
  Phone : String
  deriving DecidableEq, Repr

/-- Record `models.OTPVerifyRequest`. -/
structure OTPVerifyRequest where
  Phone : String
  Code : String
  deriving DecidableEq, Repr

/-- Record `models.OTPResponse`. -/
structure OTPResponse where
  Success : Bool
  Message : String
  UserID : String
  deriving DecidableEq, Repr

/-- Record `models.ErrorResponse`. -/
structure ErrorResponse where
  Error : String
  Message : String
  deriving DecidableEq, Repr

/-- The JSON body a handler writes. -/
inductive Body where
  | failure (e : ErrorResponse)
  | otp (r : OTPResponse)
  deriving DecidableEq, Repr

/-- What `c.JSON(status, body)` writes. -/
structure Response where
  status : Nat
  body : Body
  deriving DecidableEq, Repr

/-- Everything the identity service keeps outside the process: the Redis keys
of the OTP service, those of the user service, and the messages Twilio has
accepted. -/
structure World where
  store : Store
  users : UserStore
  outbox : List SMS

/-- What one request takes from outside: the clock, the random draws, the
digest function and the failures of each service call's round trips. -/
structure Env where
  now : Nat
  rnd : Option Nat
  uuid : String
  sha256hex : String → String
  fltRate : Faults
  fltIssue : Faults
  fltSMS : Option LibError
  fltIncr : Faults
  fltVerify : Faults
  fltUser : Faults

/-- `handlers.AuthHandler`. -/
structure AuthHandler where
  otpService : OTPService
  smsService : SMSService
  userService : UserService
  deriving DecidableEq, Repr

/-- `handlers.NewAuthHandler`. -/
def NewAuthHandler (otpService : OTPService) (smsService : SMSService)
    (userService : UserService) : AuthHandler :=
  { otpService := otpService, smsService := smsService, userService := userService }

/-- A call a handler makes on one of its services, with the arguments passed. -/
inductive ServiceCall where
  | IsRateLimited (phone : String)
  | GenerateAndStoreOTP (phone : String)
  | SendOTP (phone code : String)
  | IncrementRateLimit (phone : String)
  | VerifyOTP (phone code : String)
  | CreateUser (phone : String)
  deriving DecidableEq, Repr

/-- The run of a handler: the response written, the world afterwards and the
service calls made, in order. -/
structure Outcome where
  response : Response
  world : World
  calls : List ServiceCall

/-- `AuthHandler.StartOTP`; `bound` is the result of `c.ShouldBindJSON(&req)`. -/
def AuthHandler.StartOTP (h : AuthHandler) (env : Env) (bound : Except String OTPRequest)
    (w : World) : Outcome :=
  match bound with
  | .error msg =>
    { response := { status := 400,
                    body := .failure { Error := "invalid_request", Message := msg } },
      world := w, calls := [] }
  | .ok req =>
    match NormalizePhone req.Phone with
    | (_, some _) =>
      { response := { status := 400,
                      body := .failure { Error := "invalid_phone",
                                         Message := "Invalid phone number format" } },
        world := w, calls := [] }
    | (normalizedPhone, none) =>
      match h.otpService.IsRateLimited env.fltRate w.store env.now normalizedPhone with
      | ((_, some _), s1) =>
        { response := { status := 500,
                        body := .failure { Error := "rate_limit_error",
                                           Message := "Failed to check rate limit" } },
          world := { w with store := s1 },
          calls := [.IsRateLimited normalizedPhone] }
      | ((rateLimited, none), s1) =>
        if rateLimited then
          { response := { status := 429,
                          body := .failure
                            { Error := "rate_limited",
                              Message := "Too many OTP requests. Please try again later." } },
            world := { w with store := s1 },
            calls := [.IsRateLimited normalizedPhone] }
        else
          match h.otpService.GenerateAndStoreOTP env.rnd env.fltIssue s1 env.now
              normalizedPhone with
          | ((_, some _), s2) =>
            { response := { status := 500,
                            body := .failure { Error := "otp_generation_error",
                                               Message := "Failed to generate OTP" } },
              world := { w with store := s2 },
              calls := [.IsRateLimited normalizedPhone,
                        .GenerateAndStoreOTP normalizedPhone] }
          | ((code, none), s2) =>
            match h.smsService.SendOTP env.fltSMS w.outbox normalizedPhone code with
            | (some _, outbox1) =>
              { response := { status := 500,
                              body := .failure { Error := "sms_error",
                                                 Message := "Failed to send SMS" } },
                world := { w with store := s2, outbox := outbox1 },
                calls := [.IsRateLimited normalizedPhone,
                          .GenerateAndStoreOTP normalizedPhone,
                          .SendOTP normalizedPhone code] }
            | (none, outbox1) =>
              let s3 := (h.otpService.IncrementRateLimit env.fltIncr s2 env.now
                normalizedPhone).2
              { response := { status := 200,
                              body := .otp { Success := true,
                                             Message := "OTP sent successfully",
                                             UserID := "" } },
                world := { w with store := s3, outbox := outbox1 },
                calls := [.IsRateLimited normalizedPhone,
                          .GenerateAndStoreOTP normalizedPhone,
                          .SendOTP normalizedPhone code,
                          .IncrementRateLimit normalizedPhone] }

/-- `AuthHandler.VerifyOTP`; `bound` is the result of `c.ShouldBindJSON(&req)`.
A `CreateUser` that returned neither a user nor an error would make the
handler dereference nil; the 500 of `gin.Recovery` stands for that. -/
def AuthHandler.VerifyOTP (h : AuthHandler) (env : Env)
    (bound : Except String OTPVerifyRequest) (w : World) : Outcome :=
  match bound with
  | .error msg =>
    { response := { status := 400,
                    body := .failure { Error := "invalid_request", Message := msg } },
      world := w, calls := [] }
  | .ok req =>
    match NormalizePhone req.Phone with
    | (_, some _) =>
      { response := { status := 400,
                      body := .failure { Error := "invalid_phone",
                                         Message := "Invalid phone number format" } },
        world := w, calls := [] }
    | (normalizedPhone, none) =>
      if !ValidateOTP req.Code then
        { response := { status := 400,
                        body := .failure { Error := "invalid_otp",
                                           Message := "Invalid OTP format" } },
          world := w, calls := [] }
      else
        match h.otpService.VerifyOTP env.fltVerify w.store env.now normalizedPhone
            req.Code with
        | ((_, some err), s1) =>
          { response := { status := 400,
                          body := .failure { Error := "otp_verification_error",
                                             Message := err.text } },
            world := { w with store := s1 },
            calls := [.VerifyOTP normalizedPhone req.Code] }
        | ((valid, none), s1) =>
          if !valid then
            { response := { status := 401,
                            body := .failure { Error := "invalid_otp",
                                               Message := "Invalid OTP code" } },
              world := { w with store := s1 },
              calls := [.VerifyOTP normalizedPhone req.Code] }
          else
            match h.userService.CreateUser env.sha256hex env.fltUser w.users env.now
                env.uuid normalizedPhone with
            | ((_, some _), users1) =>
              { response := { status := 500,
                              body := .failure { Error := "user_creation_error",
                                                 Message := "Failed to create user" } },
                world := { w with store := s1, users := users1 },
                calls := [.VerifyOTP normalizedPhone req.Code,
                          .CreateUser normalizedPhone] }
            | ((none, none), users1) =>
              { response := { status := 500, body := .failure { Error := "", Message := "" } },
                world := { w with store := s1, users := users1 },
                calls := [.VerifyOTP normalizedPhone req.Code,
                          .CreateUser normalizedPhone] }
            | ((some user, none), users1) =>
              { response := { status := 200,
                              body := .otp { Success := true,
                                             Message := "OTP verified successfully",
                                             UserID := user.ID } },
                world := { w with store := s1, users := users1 },
                calls := [.VerifyOTP normalizedPhone req.Code,
                          .CreateUser normalizedPhone] }

/-! ### `config/config.go` and the wiring of `main.go` -/

/-- `strconv.Atoi`: an optional sign and decimal digits that fit an `int`. -/
def Atoi (s : String) : Option Int :=
  let body : List Char :=
    match s.data with
    | '-' :: r => r
    | '+' :: r => r
    | r => r
  if body = [] ∨ body.all (fun c => c.isDigit) = false then none
  else
    let n : Int := body.foldl (fun a c => 10 * a + ((c.toNat - 48 : Nat) : Int)) 0
    let v : Int := if s.data.head? = some '-' then -n else n
    if minInt64 ≤ v ∧ v ≤ maxInt64 then some v else none

/-- Record `config.Config`. -/
structure Config where
  Port : String
  RedisURL : String
  OTPSecret : String
  TwilioAccountSID : String
  TwilioAuthToken : String
  TwilioPhoneNumber : String
  Environment : String
  OTPExpiryMinutes : Int
  MaxOTPAttempts : Int
  RateLimitWindow : Int
  RateLimitMaxRequests : Int
  deriving DecidableEq, Repr

/-- `config.getEnv`; `environ` is `os.Getenv`, which gives "" for an unset
variable. -/
def getEnv (environ : String → String) (key defaultValue : String) : String :=
  if environ key ≠ "" then environ key else defaultValue

/-- `config.getEnvAsInt`. -/
def getEnvAsInt (environ : String → String) (key : String) (defaultValue : Int) : Int :=
  if environ key ≠ "" then
    match Atoi (environ key) with
    | some intValue => intValue
    | none => defaultValue
  else defaultValue

/-- `config.Load`. -/
def Load (environ : String → String) : Config :=
  { Port := getEnv environ "PORT" "8081",
    RedisURL := getEnv environ "REDIS_URL" "localhost:6379",
    OTPSecret := getEnv environ "OTP_SECRET" "your-otp-secret-key",
    TwilioAccountSID := getEnv environ "TWILIO_ACCOUNT_SID" "",
    TwilioAuthToken := getEnv environ "TWILIO_AUTH_TOKEN" "",
    TwilioPhoneNumber := getEnv environ "TWILIO_PHONE_NUMBER" "",
    Environment := getEnv environ "ENVIRONMENT" "development",
    OTPExpiryMinutes := getEnvAsInt environ "OTP_EXPIRY_MINUTES" 5,
    MaxOTPAttempts := getEnvAsInt environ "MAX_OTP_ATTEMPTS" 5,
    RateLimitWindow := getEnvAsInt environ "RATE_LIMIT_WINDOW" 60,
    RateLimitMaxRequests := getEnvAsInt environ "RATE_LIMIT_MAX_REQUESTS" 10 }

/-- The OTP service `main` builds: `services.NewOTPService(rdb, cfg.OTPSecret)`
with `cfg := config.Load()`. -/
def mainOTPService (environ : String → String) : OTPService :=
  NewOTPService (Load environ).OTPSecret

/-! ### Call sequences and observations used to state the properties -/

/-- A client's successive `VerifyOTP` calls for one phone, each given as
(instant, submitted code), against a store that answers every round trip:
the results in order and the keyspace after the last call. -/
def OTPService.verifyAll (svc : OTPService) (s : Store) (phone : String) :
    List (Nat × String) → List (Bool × Option Error) × Store
  | [] => ([], s)
  | c :: rest =>
    let r := svc.VerifyOTP noFaults s c.1 phone c.2
    let rs := OTPService.verifyAll svc r.2 phone rest
    (r.1 :: rs.1, rs.2)

/-- Successive `IncrementRateLimit` calls for one phone at the given instants,
against a store that answers every round trip: the keyspace after the last. -/
def OTPService.incrementAll (svc : OTPService) (s : Store) (phone : String) :
    List Nat → Store
  | [] => s
  | t :: rest =>
    OTPService.incrementAll svc (svc.IncrementRateLimit noFaults s t phone).2 phone rest

/-- Redis `TTL key` at instant `now`: the time the key has left, when it is
present and has an expiry. -/
def Store.ttl (s : Store) (now : Nat) (key : String) : Option Nat :=
  match s.find now key with
  | some e => e.expireAt.map (fun t => t - now)
  | none => none

/-- Remaining validity `expiresAt - now` of the OTP record stored at `key`. -/
def Store.remaining (s : Store) (now : Nat) (key : String) : Option Nat :=
  match s.find now key with
  | some e => (unmarshalOTP e.val).map (fun d => d.ExpiresAt - now)
  | none => none

/-- One call of the OTP service that writes OTP records, with everything the
call takes from outside. -/
inductive OTPCall where
  | issue (rnd : Option Nat) (flt : Faults) (now : Nat) (phone : String)
  | verify (flt : Faults) (now : Nat) (phone code : String)

/-- The keyspace after one call. -/
def Store.call (svc : OTPService) (s : Store) : OTPCall → Store
  | .issue rnd flt now phone => (svc.GenerateAndStoreOTP rnd flt s now phone).2
  | .verify flt now phone code => (svc.VerifyOTP flt s now phone code).2

/-- The keyspace after a sequence of calls, one after the other. -/
def Store.calls (svc : OTPService) (s : Store) (cs : List OTPCall) : Store :=
  cs.foldl (Store.call svc) s

/-- Every stored OTP record has between 0 and 5 attempts. -/
def Store.AttemptsBounded (s : Store) : Prop :=
  ∀ k e d, s k = some e → e.val = .otp d → 0 ≤ d.Attempts ∧ d.Attempts ≤ 5

/-- Whether a `VerifyOTP` result comes from a call that reached the comparison
of the submitted code with the stored one: success, or "invalid OTP code". -/
def compared (r : Bool × Option Error) : Bool :=
  r.1 || decide (r.2 = some (.plain "invalid OTP code"))

/-! ### Sample data for the worked instances -/

/-- A handler wired as in `main`, with a Twilio sender number. -/
def sampleHandler : AuthHandler :=
  NewAuthHandler (NewOTPService "k") (NewSMSService "sid" "token" "+15550000000")
    NewUserService

/-- A request environment at instant 40 in which every call succeeds and the
random source draws 0; the digest is a stand-in. -/
def sampleEnv : Env :=
  { now := 40, rnd := some 0, uuid := "user-1", sha256hex := fun text => text,
    fltRate := noFaults, fltIssue := noFaults, fltSMS := none, fltIncr := noFaults,
    fltVerify := noFaults, fltUser := noFaults }

/-- A world with nothing stored and nothing sent. -/
def emptyWorld : World :=
  { store := Store.empty, users := UserStore.empty, outbox := [] }

/-- A world in which the counter of "+15551234567" stands at 10 until
instant 50. -/
def limitedWorld : World :=
  { store := Store.empty.put (rateKey "+15551234567") { val := .int 10, expireAt := some 50 },
    users := UserStore.empty, outbox := [] }

/-- The phone of the specification's scenario. -/
def samplePhone : String := "+15551234567"

/-- A fresh record with code "123456", valid until instant 20. -/
def sampleRecord : OTPData :=
  { Code := "123456", Attempts := 0, ExpiresAt := 20, CreatedAt := 0 }

/-- A keyspace that holds `sampleRecord` for `samplePhone` until instant 20. -/
def sampleStore : Store :=
  Store.empty.put (otpKey samplePhone) { val := .otp sampleRecord, expireAt := some 20 }

/-- A keyspace whose key outlives its record: `sampleRecord` after one failed
attempt, kept by the store until instant 30. -/
def staleStore : Store :=
  Store.empty.put (otpKey samplePhone)
    { val := .otp { sampleRecord with Attempts := 1 }, expireAt := some 30 }

end Identity

namespace Orchestrator

/-- Record `models.Room`. -/
structure Room where
  ID : String
  Name : String
  OwnerUserID : String
  CreatedAt : Nat
  deriving DecidableEq, Repr

/-- Record `models.RoomMembership`. -/
structure RoomMembership where
  ID : String
  RoomID : String
  UserID : String
  Role : String
  CreatedAt : Nat
  deriving DecidableEq, Repr

/-- Record `models.Invite`. -/
structure Invite where
  ID : String
  RoomID : String
  PhoneE164 : String
  Role : String
  Token : String
  Status : String
  ExpiresAt : Nat
  CreatedAt : Nat
  deriving DecidableEq, Repr

/-- Record `models.AcceptInviteRequest`. -/
structure AcceptInviteRequest where
  Token : String
  UserID : String
  deriving DecidableEq, Repr

/-- Record `models.AcceptInviteResponse`. -/
structure AcceptInviteResponse where
  MembershipID : String
  Success : Bool
  Message : String
  deriving DecidableEq, Repr

/-- Record `models.CreateInviteRequest`. -/
structure CreateInviteRequest where
  Phone : String
  Role : String
  InviterUserID : String
  RoomID : String
  deriving DecidableEq, Repr

/-- Record `models.CreateInviteResponse`. -/
structure CreateInviteResponse where
  InviteID : String
  Token : String
  Success : Bool
  Message : String
  deriving DecidableEq, Repr

/-- Record `models.CreateRoomRequest`. -/
structure CreateRoomRequest where
  Name : String
  CreatorUserID : String
  Role : String
  deriving DecidableEq, Repr

/-- Record `models.CreateRoomResponse`. -/
structure CreateRoomResponse where
  RoomID : String
  Success : Bool
  Message : String
  deriving DecidableEq, Repr

/-- The committed rows of the tables `createTables` declares (`users` by id). -/
structure DB where
  users : List String
  rooms : List Room
  room_memberships : List RoomMembership
  invites : List Invite
  deriving DecidableEq, Repr

/-- The database right after `createTables`. -/
def DB.empty : DB := { users := [], rooms := [], room_memberships := [], invites := [] }

/-- `CHECK (role IN ('LANDLORD', 'TENANT'))`. -/
def roleOK (role : String) : Bool := role = "LANDLORD" || role = "TENANT"

/-- `CHECK (status IN ('PENDING', 'ACCEPTED', 'EXPIRED'))`. -/
def statusOK (status : String) : Bool :=
  status = "PENDING" || status = "ACCEPTED" || status = "EXPIRED"

/-- The constraint of `room_memberships`, if any, that rejects the insertion
of `m`: the role check, the primary key, `UNIQUE (room_id, user_id)` and the
two foreign keys. -/
def DB.membershipViolation (db : DB) (m : RoomMembership) : Option LibError :=
  if !roleOK m.Role then some (.violates "room_memberships_role_check")
  else if db.room_memberships.any (fun x => x.ID = m.ID) then
    some (.violates "room_memberships_pkey")
  else if db.room_memberships.any (fun x => x.RoomID = m.RoomID && x.UserID = m.UserID) then
    some (.violates "room_memberships_room_id_user_id_key")
  else if !db.rooms.any (fun r => r.ID = m.RoomID) then
    some (.violates "room_memberships_room_id_fkey")
  else if !db.users.contains m.UserID then
    some (.violates "room_memberships_user_id_fkey")
  else none

/-- The constraint of `rooms`, if any, that rejects the insertion of `r`: the
primary key and the foreign key of the owner. -/
def DB.roomViolation (db : DB) (r : Room) : Option LibError :=
  if db.rooms.any (fun x => x.ID = r.ID) then some (.violates "rooms_pkey")
  else if !db.users.contains r.OwnerUserID then
    some (.violates "rooms_owner_user_id_fkey")
  else none

/-- The constraint of `invites`, if any, that rejects the insertion of `i`:
the role and status checks, the primary key, `UNIQUE` on the token and the
foreign key of the room. -/
def DB.inviteViolation (db : DB) (i : Invite) : Option LibError :=
  if !roleOK i.Role then some (.violates "invites_role_check")
  else if !statusOK i.Status then some (.violates "invites_status_check")
  else if db.invites.any (fun x => x.ID = i.ID) then some (.violates "invites_pkey")
  else if db.invites.any (fun x => x.Token = i.Token) then
    some (.violates "invites_token_key")
  else if !db.rooms.any (fun r => r.ID = i.RoomID) then
    some (.violates "invites_room_id_fkey")
  else none

/-- The statements the services execute with `Exec`. -/
inductive Stmt where
  /-- `INSERT INTO room_memberships (id, room_id, user_id, role, created_at)` -/
  | insertMembership (m : RoomMembership)
  /-- `UPDATE invites SET status = ... WHERE id = $1` -/
  | updateInviteStatus (status : String) (id : String)
  /-- `INSERT INTO rooms (id, name, owner_user_id, created_at)` -/
  | insertRoom (r : Room)
  /-- `INSERT INTO invites (id, room_id, phone_e164, role, token, status,
  expires_at, created_at)` -/
  | insertInvite (i : Invite)
  deriving DecidableEq, Repr

/-- The server's execution of one statement on the rows it sees. -/
def DB.run (db : DB) : Stmt → Except LibError DB
  | .insertMembership m =>
    match db.membershipViolation m with
    | some e => .error e
    | none => .ok { db with room_memberships := db.room_memberships ++ [m] }
  | .updateInviteStatus status id =>
    if !statusOK status then .error (.violates "invites_status_check")
    else
      .ok { db with invites :=
        db.invites.map (fun i => if i.ID = id then { i with Status := status } else i) }
  | .insertRoom r =>
    match db.roomViolation r with
    | some e => .error e
    | none => .ok { db with rooms := db.rooms ++ [r] }
  | .insertInvite i =>
    match db.inviteViolation i with
    | some e => .error e
    | none => .ok { db with invites := db.invites ++ [i] }

/-- An open `sql.Tx`: the rows committed when it began and the rows its own
statements see. -/
structure Tx where
  committed : DB
  work : DB
  deriving DecidableEq, Repr

/-- `db.Begin()`. -/
def DB.Begin (f : Option LibError) (db : DB) : Except LibError Tx :=
  match f with
  | some e => .error e
  | none => .ok { committed := db, work := db }

/-- `tx.Exec(stmt)`: the error, if any, and the transaction afterwards. -/
def Tx.Exec (f : Option LibError) (tx : Tx) (stmt : Stmt) : Option LibError × Tx :=
  match f with
  | some e => (some e, tx)
  | none =>
    match tx.work.run stmt with
    | .error e => (some e, tx)
    | .ok w => (none, { tx with work := w })

/-- `tx.Commit()`: the error, if any, and the committed rows afterwards. -/
def Tx.Commit (f : Option LibError) (tx : Tx) : Option LibError × DB :=
  match f with
  | some e => (some e, tx.committed)
  | none => (none, tx.work)

/-- `tx.Rollback()` on a transaction that was not committed: the committed
rows afterwards. -/
def Tx.Rollback (tx : Tx) : DB := tx.committed

/-- `SELECT id, room_id, role, status, expires_at FROM invites WHERE token = $1`
scanned into a zero `models.Invite`. -/
def Tx.QueryInvite (f : Option LibError) (tx : Tx) (token : String) :
    Identity.Reply Invite :=
  match f with
  | some e => .err e
  | none =>
    match tx.work.invites.find? (fun i => i.Token = token) with
    | none => .nil
    | some i =>
      .ok { ID := i.ID, RoomID := i.RoomID, PhoneE164 := "", Role := i.Role, Token := "",
            Status := i.Status, ExpiresAt := i.ExpiresAt, CreatedAt := 0 }

/-- `SELECT COUNT(*) FROM room_memberships WHERE room_id = $1 AND user_id = $2`. -/
def Tx.CountMemberships (f : Option LibError) (tx : Tx) (roomID userID : String) :
    Except LibError Nat :=
  match f with
  | some e => .error e
  | none =>
    .ok (tx.work.room_memberships.filter
      (fun m => m.RoomID = roomID && m.UserID = userID)).length

/-- `InviteService.AcceptInvite`: the Go result pair and the committed rows
after the call.  `newID` is the text of the `uuid.New()` drawn for the
membership.  Every `return` runs the deferred `tx.Rollback()`, which leaves
the rows alone once `tx.Commit()` has succeeded. -/
def InviteService.AcceptInvite (flt : Faults) (db : DB) (now : Nat) (newID : String)
    (req : AcceptInviteRequest) : (Option AcceptInviteResponse × Option Error) × DB :=
  match db.Begin (flt 0) with
  | .error e => ((none, some (.wrap "failed to begin transaction" e)), db)
  | .ok tx =>
    match tx.QueryInvite (flt 1) req.Token with
    | .err e => ((none, some (.wrap "failed to get invite" e)), tx.Rollback)
    | .nil => ((none, some (.plain "invite not found")), tx.Rollback)
    | .ok invite =>
      if invite.Status ≠ "PENDING" then
        ((none, some (.plain "invite is no longer valid")), tx.Rollback)
      else if now > invite.ExpiresAt then
        let tx1 := (tx.Exec (flt 2) (.updateInviteStatus "EXPIRED" invite.ID)).2
        ((none, some (.plain "invite has expired")), tx1.Rollback)
      else
        match tx.CountMemberships (flt 2) invite.RoomID req.UserID with
        | .error e => ((none, some (.wrap "failed to check membership" e)), tx.Rollback)
        | .ok count =>
          if count > 0 then
            let tx1 := (tx.Exec (flt 3) (.updateInviteStatus "ACCEPTED" invite.ID)).2
            ((some { MembershipID := "existing", Success := true,
                     Message := "User is already a member of this room" }, none),
              tx1.Rollback)
          else
            let membershipID := newID
            match tx.Exec (flt 3) (.insertMembership
                { ID := membershipID, RoomID := invite.RoomID, UserID := req.UserID,
                  Role := invite.Role, CreatedAt := now }) with
            | (some e, tx1) =>
              ((none, some (.wrap "failed to create membership" e)), tx1.Rollback)
            | (none, tx1) =>
              match tx1.Exec (flt 4) (.updateInviteStatus "ACCEPTED" invite.ID) with
              | (some e, tx2) =>
                ((none, some (.wrap "failed to update invite status" e)), tx2.Rollback)
              | (none, tx2) =>
                match tx2.Commit (flt 5) with
                | (some e, db1) =>
                  ((none, some (.wrap "failed to commit transaction" e)), db1)
                | (none, db1) =>
                  ((some { MembershipID := membershipID, Success := true,
                           Message := "Successfully joined room" }, none), db1)

/-- `db.Exec(stmt)` outside a transaction: the statement commits on its own. -/
def DB.Exec (f : Option LibError) (db : DB) (stmt : Stmt) : Option LibError × DB :=
  match f with
  | some e => (some e, db)
  | none =>
    match db.run stmt with
    | .error e => (some e, db)
    | .ok w => (none, w)

/-- Go `time.Hour`, in nanoseconds. -/
def Hour : Nat := 60 * Identity.Minute

/-- `InviteService.CreateInvite`: the Go result pair and the committed rows
after the call.  `token` and `inviteID` are the texts of the two `uuid.New()`
drawn, in that order. -/
def InviteService.CreateInvite (flt : Faults) (db : DB) (now : Nat)
    (token inviteID : String) (req : CreateInviteRequest) :
    (Option CreateInviteResponse × Option Error) × DB :=
  let expiresAt := now + 7 * 24 * Hour
  match db.Exec (flt 0) (.insertInvite
      { ID := inviteID, RoomID := req.RoomID, PhoneE164 := req.Phone, Role := req.Role,
        Token := token, Status := "PENDING", ExpiresAt := expiresAt, CreatedAt := now }) with
  | (some e, db1) => ((none, some (.wrap "failed to create invite" e)), db1)
  | (none, db1) =>
    ((some { InviteID := inviteID, Token := token, Success := true,
             Message := "Invite created successfully" }, none), db1)

/-- `RoomService.CreateRoom`: the Go result pair and the committed rows after
the call.  `roomID` and `membershipID` are the texts of the two `uuid.New()`
drawn, in that order. -/
def RoomService.CreateRoom (flt : Faults) (db : DB) (now : Nat)
    (roomID membershipID : String) (req : CreateRoomRequest) :
    (Option CreateRoomResponse × Option Error) × DB :=
  match db.Begin (flt 0) with
  | .error e => ((none, some (.wrap "failed to begin transaction" e)), db)
  | .ok tx =>
    match tx.Exec (flt 1) (.insertRoom
        { ID := roomID, Name := req.Name, OwnerUserID := req.CreatorUserID,
          CreatedAt := now }) with
    | (some e, tx1) => ((none, some (.wrap "failed to create room" e)), tx1.Rollback)
    | (none, tx1) =>
      match tx1.Exec (flt 2) (.insertMembership
          { ID := membershipID, RoomID := roomID, UserID := req.CreatorUserID,
            Role := req.Role, CreatedAt := now }) with
      | (some e, tx2) =>
        ((none, some (.wrap "failed to create membership" e)), tx2.Rollback)
      | (none, tx2) =>
        match tx2.Commit (flt 3) with
        | (some e, db1) => ((none, some (.wrap "failed to commit transaction" e)), db1)
        | (none, db1) =>
          ((some { RoomID := roomID, Success := true,
                   Message := "Room created successfully" }, none), db1)

/-! ### Call sequences and invariants used to state the properties -/

/-- One call of the orchestrator's services, with everything the call takes
from outside: the store's failures, the clock and the identifiers drawn. -/
inductive Call where
  | createRoom (flt : Faults) (now : Nat) (roomID membershipID : String)
      (req : CreateRoomRequest)
  | createInvite (flt : Faults) (now : Nat) (token inviteID : String)
      (req : CreateInviteRequest)
  | acceptInvite (flt : Faults) (now : Nat) (newID : String) (req : AcceptInviteRequest)

/-- The committed rows after one call. -/
def DB.call (db : DB) : Call → DB
  | .createRoom flt now roomID membershipID req =>
    (RoomService.CreateRoom flt db now roomID membershipID req).2
  | .createInvite flt now token inviteID req =>
    (InviteService.CreateInvite flt db now token inviteID req).2
  | .acceptInvite flt now newID req =>
    (InviteService.AcceptInvite flt db now newID req).2

/-- The committed rows after a sequence of calls, one after the other. -/
def DB.calls (db : DB) (cs : List Call) : DB := cs.foldl DB.call db

/-- No two rows of `room_memberships` share the pair (room_id, user_id). -/
def DB.UniqueMembers (db : DB) : Prop :=
  db.room_memberships.Pairwise (fun a b => ¬ (a.RoomID = b.RoomID ∧ a.UserID = b.UserID))

/-- The primary key of `invites`: no two rows share an id. -/
def DB.UniqueInviteIDs (db : DB) : Prop := (db.invites.map Invite.ID).Nodup

/-- How a call may leave the invite `i` as the row `j`: the same id and token,
and the same status unless it went from PENDING to ACCEPTED or to EXPIRED. -/
def Invite.StepsTo (i j : Invite) : Prop :=
  j.ID = i.ID ∧ j.Token = i.Token ∧
    (j.Status = i.Status ∨
      (i.Status = "PENDING" ∧ (j.Status = "ACCEPTED" ∨ j.Status = "EXPIRED")))

/-! ### Sample data for the worked instances -/

/-- A store that reports a violation of `UNIQUE (room_id, user_id)` on the
fourth round trip of a call, the membership `INSERT` of `AcceptInvite`. -/
def uniqueViolationOnInsert : Faults :=
  fun i => if i = 3 then some (.violates "room_memberships_room_id_user_id_key") else none

/-- A pending invite of role TENANT to room "r1", valid until instant 100. -/
def sampleInvite : Invite :=
  { ID := "i1", RoomID := "r1", PhoneE164 := "+15551234567", Role := "TENANT",
    Token := "tok1", Status := "PENDING", ExpiresAt := 100, CreatedAt := 0 }

/-- A database with users "u1" and "u2", room "r1" owned by "u1", its
landlord membership, and `sampleInvite`. -/
def sampleDB : DB :=
  { users := ["u1", "u2"],
    rooms := [{ ID := "r1", Name := "Flat 1", OwnerUserID := "u1", CreatedAt := 0 }],
    room_memberships :=
      [{ ID := "m1", RoomID := "r1", UserID := "u1", Role := "LANDLORD", CreatedAt := 0 }],
    invites := [sampleInvite] }

end Orchestrator

/-! ## Properties of the OTP engine -/

namespace Identity

theorem Store.put_put (s : Store) (key : String) (e1 e2 : Entry) :
    (s.put key e1).put key e2 = s.put key e2 := by
  funext k
  by_cases h : k = key <;> simp [Store.put, h]

theorem Store.put_same (s : Store) (key : String) (e : Entry) (h : s key = some e) :
    s.put key e = s := by
  funext k
  by_cases hk : k = key
  · simp [Store.put, hk, h]
  · simp [Store.put, hk]

theorem Store.find_put_self (s : Store) (key : String) (e : Entry) (now : Nat) :
    (s.put key e).find now key = if e.live now then some e else none := by
  simp [Store.find, Store.put]

theorem Store.find_erase_self (s : Store) (key : String) (now : Nat) :
    (s.erase key).find now key = none := by
  simp [Store.find, Store.erase]

/-- The four outcomes of `VerifyOTP` on a record the store returns. -/
theorem verify_found (secret : String) (s : Store) (now : Nat) (phone code : String)
    (e : Entry) (d : OTPData)
    (hfind : s.find now (otpKey phone) = some e) (hval : e.val = .otp d) :
    (NewOTPService secret).VerifyOTP noFaults s now phone code =
      if now > d.ExpiresAt then
        ((false, some (.plain "OTP expired")), s.erase (otpKey phone))
      else if d.Attempts ≥ 5 then
        ((false, some (.plain "max OTP attempts exceeded")), s.erase (otpKey phone))
      else if d.Code = code then
        ((true, none), s.erase (otpKey phone))
      else
        ((false, some (.plain "invalid OTP code")),
          s.put (otpKey phone)
            { val := .otp { d with Attempts := d.Attempts + 1 },
              expireAt := some (now + 5 * Minute) }) := by
  simp only [OTPService.VerifyOTP, Redis.Get, noFaults, hfind, hval, unmarshalOTP,
    NewOTPService, Redis.Del, Redis.Set]
  have : 5 * Minute ≠ 0 := by decide
  simp [this]

/-- `VerifyOTP` on a key the store does not return. -/
theorem verify_absent (secret : String) (s : Store) (now : Nat) (phone code : String)
    (hfind : s.find now (otpKey phone) = none) :
    (NewOTPService secret).VerifyOTP noFaults s now phone code =
      ((false, some (.plain "OTP not found or expired")), s) := by
  simp [OTPService.VerifyOTP, Redis.Get, noFaults, hfind]

/-- Claim C1: for a stored OTP record with `now` not after `ExpiresAt` and
fewer than 5 attempts, `VerifyOTP` with the record's code returns `(true, nil)`
and deletes the record; a second `VerifyOTP` with the same code, at any later
instant, fails with "OTP not found or expired" and leaves the store as it is. -/
theorem verify_correct_code_succeeds_once (secret phone : String) (s : Store)
    (now later : Nat) (e : Entry) (d : OTPData)
    (hfind : s.find now (otpKey phone) = some e) (hval : e.val = .otp d)
    (hexp : now ≤ d.ExpiresAt) (hatt : d.Attempts < 5) :
    (NewOTPService secret).VerifyOTP noFaults s now phone d.Code =
        ((true, none), s.erase (otpKey phone)) ∧
      (s.erase (otpKey phone)) (otpKey phone) = none ∧
      (NewOTPService secret).VerifyOTP noFaults (s.erase (otpKey phone)) later phone d.Code =
        ((false, some (.plain "OTP not found or expired")), s.erase (otpKey phone)) := by
  refine ⟨?_, ?_, ?_⟩
  · rw [verify_found secret s now phone d.Code e d hfind hval]
    have h1 : ¬ now > d.ExpiresAt := by omega
    have h2 : ¬ d.Attempts ≥ 5 := by omega
    simp [h1, h2]
  · simp [Store.erase]
  · exact verify_absent secret _ later phone d.Code (Store.find_erase_self s _ later)

/-- Witness for C1: `sampleRecord`, verified at instant 15 and again at 16. -/
theorem verify_correct_code_succeeds_once_witness :
    (NewOTPService "k").VerifyOTP noFaults sampleStore 15 samplePhone sampleRecord.Code =
        ((true, none), sampleStore.erase (otpKey samplePhone)) ∧
      (sampleStore.erase (otpKey samplePhone)) (otpKey samplePhone) = none ∧
      (NewOTPService "k").VerifyOTP noFaults (sampleStore.erase (otpKey samplePhone)) 16
          samplePhone sampleRecord.Code =
        ((false, some (.plain "OTP not found or expired")),
          sampleStore.erase (otpKey samplePhone)) :=
  verify_correct_code_succeeds_once "k" samplePhone sampleStore 15 16
    { val := .otp sampleRecord, expireAt := some 20 } sampleRecord
    (by decide) rfl (by decide) (by decide)

/-- A successful `GenerateAndStoreOTP` drew a number, returned its six-digit
text and bound the key to a fresh record that lives for the expiry window. -/
theorem issue_ok (secret phone c : String) (rnd : Option Nat) (flt : Faults) (s : Store)
    (now : Nat)
    (h : ((NewOTPService secret).GenerateAndStoreOTP rnd flt s now phone).1 = (c, none)) :
    ((NewOTPService secret).GenerateAndStoreOTP rnd flt s now phone).2 =
      s.put (otpKey phone)
        { val := .otp { Code := c, Attempts := 0, ExpiresAt := now + 5 * Minute,
                        CreatedAt := now },
          expireAt := some (now + 5 * Minute) } := by
  have h5 : 5 * Minute ≠ 0 := by decide
  cases rnd with
  | none => simp [OTPService.GenerateAndStoreOTP, GenerateOTP] at h
  | some n =>
    cases hf : flt 0 with
    | some e => simp [OTPService.GenerateAndStoreOTP, GenerateOTP, Redis.Set, hf] at h
    | none =>
      simp only [OTPService.GenerateAndStoreOTP, GenerateOTP, Redis.Set, hf, NewOTPService,
        Prod.mk.injEq, and_true] at h
      simp [OTPService.GenerateAndStoreOTP, GenerateOTP, Redis.Set, hf, NewOTPService, h5, h]

/-- A run of wrong codes on a record that the store keeps at least as long as
the record is valid: every call returns "invalid OTP code" and the record
counts them, as long as the count stays within 5 and every call is made
before `ExpiresAt` and at most one expiry window before it. -/
theorem verifyAll_wrong (secret phone : String) (calls : List (Nat × String)) :
    ∀ (s : Store) (d : OTPData) (x : Nat),
      s (otpKey phone) = some { val := .otp d, expireAt := some x } →
      d.ExpiresAt ≤ x →
      d.Attempts + calls.length ≤ 5 →
      (∀ c ∈ calls, c.1 ≤ d.ExpiresAt ∧ d.ExpiresAt ≤ c.1 + 5 * Minute ∧ c.2 ≠ d.Code) →
      ∃ y, d.ExpiresAt ≤ y ∧
        (NewOTPService secret).verifyAll s phone calls =
          (List.replicate calls.length (false, some (.plain "invalid OTP code")),
            s.put (otpKey phone)
              { val := .otp { d with Attempts := d.Attempts + calls.length },
                expireAt := some y }) := by
  induction calls with
  | nil =>
    intro s d x hs hx _ _
    refine ⟨x, hx, ?_⟩
    simp only [OTPService.verifyAll, List.length_nil, List.replicate_zero, Nat.cast_zero,
      add_zero]
    rw [Store.put_same s _ _ hs]
  | cons c rest ih =>
    intro s d x hs hx hatt hcalls
    have hc := hcalls c (List.mem_cons_self _ _)
    have hfind : s.find c.1 (otpKey phone) = some { val := .otp d, expireAt := some x } := by
      have : c.1 ≤ x := le_trans hc.1 hx
      simp [Store.find, hs, Entry.live, this]
    have hlen : ((c :: rest).length : Int) = (rest.length : Int) + 1 := by simp
    have hstep := verify_found secret s c.1 phone c.2 _ d hfind rfl
    have h1 : ¬ c.1 > d.ExpiresAt := by omega
    have h2 : ¬ d.Attempts ≥ 5 := by omega
    have h3 : ¬ d.Code = c.2 := fun h => hc.2.2 h.symm
    simp only [h1, h2, h3, if_false] at hstep
    obtain ⟨y, hy, hrest⟩ := ih
      (s.put (otpKey phone)
        { val := .otp { d with Attempts := d.Attempts + 1 },
          expireAt := some (c.1 + 5 * Minute) })
      { d with Attempts := d.Attempts + 1 } (c.1 + 5 * Minute)
      (by simp [Store.put]) hc.2.1 (by simp only; omega)
      (fun c2 h2 => hcalls c2 (List.mem_cons_of_mem _ h2))
    refine ⟨y, hy, ?_⟩
    simp only [OTPService.verifyAll, hstep, hrest, List.length_cons, List.replicate_succ,
      Store.put_put]
    have : d.Attempts + 1 + (rest.length : Int) = d.Attempts + ((rest.length + 1 : Nat) : Int) := by
      push_cast; ring
    rw [this]

/-- Counterexample to C2 as stated: a code is issued at instant 0 and
"000000" is submitted at instants 1 to 5, all before `ExpiresAt`, each answered
"invalid OTP code"; the next call, one nanosecond after `ExpiresAt`, still
finds the record, which the last write keeps for 5 more minutes, and fails
with "OTP expired", not with "max OTP attempts exceeded". -/
theorem sixth_call_after_expiry_is_expired :
    ((NewOTPService "k").verifyAll
        ((NewOTPService "k").GenerateAndStoreOTP (some 0) noFaults Store.empty 0
          samplePhone).2 samplePhone
        [(1, "000000"), (2, "000000"), (3, "000000"), (4, "000000"), (5, "000000")]).1 =
      List.replicate 5 (false, some (.plain "invalid OTP code")) ∧
    ((NewOTPService "k").VerifyOTP noFaults
        ((NewOTPService "k").verifyAll
          ((NewOTPService "k").GenerateAndStoreOTP (some 0) noFaults Store.empty 0
            samplePhone).2 samplePhone
          [(1, "000000"), (2, "000000"), (3, "000000"), (4, "000000"), (5, "000000")]).2
        (0 + 5 * Minute + 1) samplePhone "100000").1 =
      (false, some (.plain "OTP expired")) := by
  decide

/-- Claim C2, amended: from a freshly issued record (attempts 0), after 5
`VerifyOTP` calls with wrong codes, all made before `ExpiresAt`, the next
`VerifyOTP`, made before `ExpiresAt` like them, fails with "max OTP attempts
exceeded" whatever code it submits, the correct one included, and deletes the
record. -/
theorem max_attempts_then_exceeded (secret phone c : String) (rnd : Option Nat)
    (flt : Faults) (s0 : Store) (t0 : Nat) (calls : List (Nat × String))
    (t6 : Nat) (code6 : String)
    (hissue : ((NewOTPService secret).GenerateAndStoreOTP rnd flt s0 t0 phone).1 = (c, none))
    (hlen : calls.length = 5)
    (hcalls : ∀ x ∈ calls, t0 ≤ x.1 ∧ x.1 ≤ t0 + 5 * Minute ∧ x.2 ≠ c)
    (ht6 : t6 ≤ t0 + 5 * Minute) :
    ((NewOTPService secret).verifyAll
        ((NewOTPService secret).GenerateAndStoreOTP rnd flt s0 t0 phone).2 phone calls).1 =
      List.replicate 5 (false, some (.plain "invalid OTP code")) ∧
    (NewOTPService secret).VerifyOTP noFaults
        ((NewOTPService secret).verifyAll
          ((NewOTPService secret).GenerateAndStoreOTP rnd flt s0 t0 phone).2 phone calls).2
        t6 phone code6 =
      ((false, some (.plain "max OTP attempts exceeded")),
        ((NewOTPService secret).verifyAll
          ((NewOTPService secret).GenerateAndStoreOTP rnd flt s0 t0 phone).2 phone
            calls).2.erase (otpKey phone)) ∧
    (((NewOTPService secret).verifyAll
          ((NewOTPService secret).GenerateAndStoreOTP rnd flt s0 t0 phone).2 phone
            calls).2.erase (otpKey phone)) (otpKey phone) = none := by
  rw [issue_ok secret phone c rnd flt s0 t0 hissue]
  obtain ⟨y, hy, hrun⟩ := verifyAll_wrong secret phone calls
    (s0.put (otpKey phone)
      { val := .otp { Code := c, Attempts := 0, ExpiresAt := t0 + 5 * Minute, CreatedAt := t0 },
        expireAt := some (t0 + 5 * Minute) })
    { Code := c, Attempts := 0, ExpiresAt := t0 + 5 * Minute, CreatedAt := t0 }
    (t0 + 5 * Minute) (by simp [Store.put]) (le_refl _) (by simp [hlen])
    (fun x hx => ⟨(hcalls x hx).2.1, by have := (hcalls x hx).1; simp only; omega,
      (hcalls x hx).2.2⟩)
  simp only at hy
  rw [hrun, hlen]
  refine ⟨rfl, ?_, by simp [Store.erase]⟩
  have hfind : (Store.put (s0.put (otpKey phone)
      { val := .otp { Code := c, Attempts := 0, ExpiresAt := t0 + 5 * Minute, CreatedAt := t0 },
        expireAt := some (t0 + 5 * Minute) }) (otpKey phone)
      { val := .otp { Code := c, Attempts := 0 + ((5 : Nat) : Int),
                      ExpiresAt := t0 + 5 * Minute, CreatedAt := t0 },
        expireAt := some y }).find t6 (otpKey phone) =
      some { val := .otp { Code := c, Attempts := 0 + ((5 : Nat) : Int),
                           ExpiresAt := t0 + 5 * Minute, CreatedAt := t0 },
             expireAt := some y } := by
    have : t6 ≤ y := le_trans ht6 hy
    simp [Store.find, Store.put, Entry.live, this]
  rw [verify_found secret _ t6 phone code6 _ _ hfind rfl]
  have h1 : ¬ t6 > t0 + 5 * Minute := by omega
  simp [h1]

/-- Witness for C2: a code issued at instant 0, five submissions of "000000"
at instants 1 to 5, then the issued code itself at instant 6. -/
theorem max_attempts_then_exceeded_witness :
    (NewOTPService "k").VerifyOTP noFaults
        ((NewOTPService "k").verifyAll
          ((NewOTPService "k").GenerateAndStoreOTP (some 0) noFaults Store.empty 0
            samplePhone).2 samplePhone
          [(1, "000000"), (2, "000000"), (3, "000000"), (4, "000000"), (5, "000000")]).2
        6 samplePhone "100000" =
      ((false, some (.plain "max OTP attempts exceeded")),
        ((NewOTPService "k").verifyAll
          ((NewOTPService "k").GenerateAndStoreOTP (some 0) noFaults Store.empty 0
            samplePhone).2 samplePhone
          [(1, "000000"), (2, "000000"), (3, "000000"), (4, "000000"),
            (5, "000000")]).2.erase (otpKey samplePhone)) :=
  (max_attempts_then_exceeded "k" samplePhone "100000" (some 0) noFaults Store.empty 0
    [(1, "000000"), (2, "000000"), (3, "000000"), (4, "000000"), (5, "000000")]
    6 "100000" (by decide) (by decide) (by decide) (by decide)).2.1

/-- Claim C3: on a stored record with `a < 5` attempts and `now` not after
`ExpiresAt`, `VerifyOTP` with a code other than the stored one fails with
"invalid OTP code" and leaves at the key the same record with attempts
`a + 1` (code, `ExpiresAt` and `CreatedAt` as before); and three wrong
submissions on a freshly issued record each return that error and leave
attempts = 3. -/
theorem mismatch_counts_attempt (secret phone code : String) (s : Store) (now : Nat)
    (e : Entry) (d : OTPData)
    (c : String) (rnd : Option Nat) (flt : Faults) (s0 : Store) (t0 : Nat)
    (calls : List (Nat × String))
    (hfind : s.find now (otpKey phone) = some e) (hval : e.val = .otp d)
    (hexp : now ≤ d.ExpiresAt) (hatt : d.Attempts < 5) (hcode : code ≠ d.Code)
    (hissue : ((NewOTPService secret).GenerateAndStoreOTP rnd flt s0 t0 phone).1 = (c, none))
    (hlen : calls.length = 3)
    (hcalls : ∀ x ∈ calls, t0 ≤ x.1 ∧ x.1 ≤ t0 + 5 * Minute ∧ x.2 ≠ c) :
    (((NewOTPService secret).VerifyOTP noFaults s now phone code).1 =
        (false, some (.plain "invalid OTP code")) ∧
      (((NewOTPService secret).VerifyOTP noFaults s now phone code).2 (otpKey phone)).map
          Entry.val =
        some (.otp { Code := d.Code, Attempts := d.Attempts + 1, ExpiresAt := d.ExpiresAt,
                     CreatedAt := d.CreatedAt }) ∧
      ∀ k, k ≠ otpKey phone →
        ((NewOTPService secret).VerifyOTP noFaults s now phone code).2 k = s k) ∧
    (((NewOTPService secret).verifyAll
        ((NewOTPService secret).GenerateAndStoreOTP rnd flt s0 t0 phone).2 phone calls).1 =
        List.replicate 3 (false, some (.plain "invalid OTP code")) ∧
      (((NewOTPService secret).verifyAll
        ((NewOTPService secret).GenerateAndStoreOTP rnd flt s0 t0 phone).2 phone calls).2
          (otpKey phone)).map Entry.val =
        some (.otp { Code := c, Attempts := 3, ExpiresAt := t0 + 5 * Minute,
                     CreatedAt := t0 })) := by
  constructor
  · rw [verify_found secret s now phone code e d hfind hval]
    have h1 : ¬ now > d.ExpiresAt := by omega
    have h2 : ¬ d.Attempts ≥ 5 := by omega
    have h3 : ¬ d.Code = code := fun h => hcode h.symm
    simp only [h1, h2, h3, if_false]
    refine ⟨by simp, by simp [Store.put], ?_⟩
    intro k hk
    simp [Store.put, hk]
  · rw [issue_ok secret phone c rnd flt s0 t0 hissue]
    obtain ⟨y, _, hrun⟩ := verifyAll_wrong secret phone calls
      (s0.put (otpKey phone)
        { val := .otp { Code := c, Attempts := 0, ExpiresAt := t0 + 5 * Minute,
                        CreatedAt := t0 },
          expireAt := some (t0 + 5 * Minute) })
      { Code := c, Attempts := 0, ExpiresAt := t0 + 5 * Minute, CreatedAt := t0 }
      (t0 + 5 * Minute) (by simp [Store.put]) (le_refl _) (by simp [hlen])
      (fun x hx => ⟨(hcalls x hx).2.1, by have := (hcalls x hx).1; simp only; omega,
        (hcalls x hx).2.2⟩)
    rw [hrun, hlen]
    exact ⟨rfl, by simp [Store.put]⟩

/-- Witness for C3: "000000" against `sampleRecord` at instant 15, and the
specification's scenario: a code issued at instant 0, then "000000" three
times. -/
theorem mismatch_counts_attempt_witness :
    (((NewOTPService "k").VerifyOTP noFaults sampleStore 15 samplePhone "000000").2
        (otpKey samplePhone)).map Entry.val =
        some (.otp { Code := "123456", Attempts := 1, ExpiresAt := 20, CreatedAt := 0 }) ∧
      (((NewOTPService "k").verifyAll
        ((NewOTPService "k").GenerateAndStoreOTP (some 0) noFaults Store.empty 0
          samplePhone).2 samplePhone [(1, "000000"), (2, "000000"), (3, "000000")]).2
          (otpKey samplePhone)).map Entry.val =
        some (.otp { Code := "100000", Attempts := 3, ExpiresAt := 0 + 5 * Minute,
                     CreatedAt := 0 }) :=
  have h := mismatch_counts_attempt "k" samplePhone "000000" sampleStore 15
    { val := .otp sampleRecord, expireAt := some 20 } sampleRecord
    "100000" (some 0) noFaults Store.empty 0 [(1, "000000"), (2, "000000"), (3, "000000")]
    (by decide) rfl (by decide) (by decide) (by decide) (by decide) (by decide) (by decide)
  ⟨h.1.2.1, h.2.2⟩

/-- Claim C4: when the store returns a record and `now` is after its
`ExpiresAt`, `VerifyOTP` fails with "OTP expired" and deletes the record,
whatever the submitted code and whatever the record's attempts. -/
theorem expired_record_deleted (secret phone code : String) (s : Store) (now : Nat)
    (e : Entry) (d : OTPData)
    (hfind : s.find now (otpKey phone) = some e) (hval : e.val = .otp d)
    (hexp : d.ExpiresAt < now) :
    (NewOTPService secret).VerifyOTP noFaults s now phone code =
        ((false, some (.plain "OTP expired")), s.erase (otpKey phone)) ∧
      (s.erase (otpKey phone)) (otpKey phone) = none := by
  rw [verify_found secret s now phone code e d hfind hval]
  simp [hexp, Store.erase]

/-- Witness for C4: the correct code, submitted at instant 25 for a record
that expired at 20 and that the store keeps until 30. -/
theorem expired_record_deleted_witness :
    (NewOTPService "k").VerifyOTP noFaults staleStore 25 samplePhone "123456" =
        ((false, some (.plain "OTP expired")), staleStore.erase (otpKey samplePhone)) ∧
      (staleStore.erase (otpKey samplePhone)) (otpKey samplePhone) = none :=
  expired_record_deleted "k" samplePhone "123456" staleStore 25
    { val := .otp { sampleRecord with Attempts := 1 }, expireAt := some 30 }
    { sampleRecord with Attempts := 1 } (by decide) rfl (by decide)

/-- Whatever the store's failures, `VerifyOTP` returns `true` only for the
code of a record the store returned. -/
theorem verify_true_code (secret phone code : String) (flt : Faults) (s : Store) (now : Nat)
    (h : ((NewOTPService secret).VerifyOTP flt s now phone code).1.1 = true) :
    ∃ e d, s.find now (otpKey phone) = some e ∧ e.val = .otp d ∧ d.Code = code := by
  unfold OTPService.VerifyOTP Redis.Get at h
  cases hf : flt 0 with
  | some err => simp [hf] at h
  | none =>
    cases hfind : s.find now (otpKey phone) with
    | none => simp [hf, hfind] at h
    | some e =>
      cases hv : e.val with
      | otp d =>
        refine ⟨e, d, rfl, hv, ?_⟩
        simp only [hf, hfind, hv, unmarshalOTP] at h
        by_contra hne
        split_ifs at h
      | int n => simp [hf, hfind, hv, unmarshalOTP] at h
      | raw t => simp [hf, hfind, hv, unmarshalOTP] at h

/-- Counterexample to C5 as stated: the random source may return the same
number twice, so that both issuances return "100000" and the code of the
first issuance verifies after the second. -/
theorem reissue_same_code_verifies :
    ((NewOTPService "k").GenerateAndStoreOTP (some 0) noFaults Store.empty 0 samplePhone).1 =
        ("100000", none) ∧
      ((NewOTPService "k").GenerateAndStoreOTP (some 0) noFaults
        ((NewOTPService "k").GenerateAndStoreOTP (some 0) noFaults Store.empty 0
          samplePhone).2 1 samplePhone).1 = ("100000", none) ∧
      ((NewOTPService "k").VerifyOTP noFaults
        ((NewOTPService "k").GenerateAndStoreOTP (some 0) noFaults
          ((NewOTPService "k").GenerateAndStoreOTP (some 0) noFaults Store.empty 0
            samplePhone).2 1 samplePhone).2 2 samplePhone "100000").1 = (true, none) := by
  decide

/-- Claim C5, amended: after two successive successful `GenerateAndStoreOTP`
calls for a subject returning `c1` then `c2`, the subject's key holds one
record, which carries `c2` with attempts 0; and when `c1` differs from `c2`,
`VerifyOTP(subject, c1)` does not succeed, at any instant and whatever the
store's failures. -/
theorem reissue_replaces_record (secret phone c1 c2 : String) (rnd1 rnd2 : Option Nat)
    (flt1 flt2 flt3 : Faults) (s0 : Store) (t1 t2 t3 : Nat)
    (_h1 : ((NewOTPService secret).GenerateAndStoreOTP rnd1 flt1 s0 t1 phone).1 = (c1, none))
    (h2 : ((NewOTPService secret).GenerateAndStoreOTP rnd2 flt2
            ((NewOTPService secret).GenerateAndStoreOTP rnd1 flt1 s0 t1 phone).2
            t2 phone).1 = (c2, none)) :
    ((NewOTPService secret).GenerateAndStoreOTP rnd2 flt2
        ((NewOTPService secret).GenerateAndStoreOTP rnd1 flt1 s0 t1 phone).2
        t2 phone).2 (otpKey phone) =
      some { val := .otp { Code := c2, Attempts := 0, ExpiresAt := t2 + 5 * Minute,
                           CreatedAt := t2 },
             expireAt := some (t2 + 5 * Minute) } ∧
    (c1 ≠ c2 →
      ((NewOTPService secret).VerifyOTP flt3
        ((NewOTPService secret).GenerateAndStoreOTP rnd2 flt2
          ((NewOTPService secret).GenerateAndStoreOTP rnd1 flt1 s0 t1 phone).2
          t2 phone).2 t3 phone c1).1.1 = false) := by
  rw [issue_ok secret phone c2 rnd2 flt2 _ t2 h2]
  refine ⟨by simp [Store.put], ?_⟩
  intro hne
  by_contra hv
  rw [Bool.not_eq_false] at hv
  obtain ⟨e, d, hfind, hval, hcode⟩ := verify_true_code secret phone c1 flt3 _ t3 hv
  simp only [Store.find, Store.put, if_true] at hfind
  split_ifs at hfind
  · simp only [Option.some.injEq] at hfind
    subst hfind
    simp only [RValue.otp.injEq] at hval
    subst hval
    exact hne hcode.symm

/-- Witness for C5: numbers 0 and 1 drawn at instants 0 and 1, then the first
code submitted at instant 2. -/
theorem reissue_replaces_record_witness :
    ((NewOTPService "k").GenerateAndStoreOTP (some 1) noFaults
        ((NewOTPService "k").GenerateAndStoreOTP (some 0) noFaults Store.empty 0
          samplePhone).2 1 samplePhone).2 (otpKey samplePhone) =
      some { val := .otp { Code := "100001", Attempts := 0, ExpiresAt := 1 + 5 * Minute,
                           CreatedAt := 1 },
             expireAt := some (1 + 5 * Minute) } ∧
    ((NewOTPService "k").VerifyOTP noFaults
        ((NewOTPService "k").GenerateAndStoreOTP (some 1) noFaults
          ((NewOTPService "k").GenerateAndStoreOTP (some 0) noFaults Store.empty 0
            samplePhone).2 1 samplePhone).2 2 samplePhone "100000").1.1 = false :=
  have h := reissue_replaces_record "k" samplePhone "100000" "100001" (some 0) (some 1)
    noFaults noFaults noFaults Store.empty 0 1 2 (by decide) (by decide)
  ⟨h.1, h.2 (by decide)⟩

/-- Claim C6: a successful `GenerateAndStoreOTP(subject)` at instant `now`
that returns `c` leaves at key "otp:" + subject the record with code `c`,
attempts 0 and `ExpiresAt = now + 5 minutes`, with a TTL of 5 minutes,
whatever the key held before, and leaves every other key as it was. -/
theorem issue_stores_fresh_record (secret phone c : String) (rnd : Option Nat)
    (flt : Faults) (s : Store) (now : Nat)
    (h : ((NewOTPService secret).GenerateAndStoreOTP rnd flt s now phone).1 = (c, none)) :
    otpKey phone = "otp:" ++ phone ∧
    ((NewOTPService secret).GenerateAndStoreOTP rnd flt s now phone).2 (otpKey phone) =
      some { val := .otp { Code := c, Attempts := 0, ExpiresAt := now + 5 * Minute,
                           CreatedAt := now },
             expireAt := some (now + 5 * Minute) } ∧
    ((NewOTPService secret).GenerateAndStoreOTP rnd flt s now phone).2.ttl now (otpKey phone) =
      some (5 * Minute) ∧
    ∀ k, k ≠ otpKey phone →
      ((NewOTPService secret).GenerateAndStoreOTP rnd flt s now phone).2 k = s k := by
  rw [issue_ok secret phone c rnd flt s now h]
  refine ⟨rfl, by simp [Store.put], ?_, ?_⟩
  · simp [Store.ttl, Store.find, Store.put, Entry.live]
  · intro k hk
    simp [Store.put, hk]

/-- Witness for C6: number 0 drawn at instant 7 over `sampleStore`, which
already holds a record for the phone. -/
theorem issue_stores_fresh_record_witness :
    ((NewOTPService "k").GenerateAndStoreOTP (some 0) noFaults sampleStore 7 samplePhone).2
        (otpKey samplePhone) =
      some { val := .otp { Code := "100000", Attempts := 0, ExpiresAt := 7 + 5 * Minute,
                           CreatedAt := 7 },
             expireAt := some (7 + 5 * Minute) } :=
  (issue_stores_fresh_record "k" samplePhone "100000" (some 0) noFaults sampleStore 7
    (by decide)).2.1

/-- The counter after `n` increments, none more than a minute after the one
before: the key holds `min n maxInt64` and expires a minute after the last. -/
theorem incrementAll_counter (secret phone : String) (ts : List Nat) :
    ∀ (s : Store) (n : Nat) (t : Nat),
      1 ≤ n →
      s (rateKey phone) =
        some { val := .int (min (n : Int) maxInt64), expireAt := some (t + Minute) } →
      List.Chain (fun a b => b ≤ a + Minute) t ts →
      (NewOTPService secret).incrementAll s phone ts (rateKey phone) =
        some { val := .int (min ((n + ts.length : Nat) : Int) maxInt64),
               expireAt := some ((t :: ts).getLast (List.cons_ne_nil _ _) + Minute) } := by
  induction ts with
  | nil =>
    intro s n t _ hs _
    simpa [OTPService.incrementAll] using hs
  | cons u rest ih =>
    intro s n t hn hs hchain
    rw [List.chain_cons] at hchain
    have hfind : s.find u (rateKey phone) =
        some { val := .int (min (n : Int) maxInt64), expireAt := some (t + Minute) } := by
      simp [Store.find, hs, Entry.live, hchain.1]
    have hmax : (0 : Int) < maxInt64 := by decide
    have hmin : minInt64 ≤ 0 := by decide
    have hrange : minInt64 ≤ min (n : Int) maxInt64 ∧ min (n : Int) maxInt64 ≤ maxInt64 := by
      constructor
      · have : (0 : Int) ≤ min (n : Int) maxInt64 := le_min (by omega) (le_of_lt hmax)
        omega
      · exact min_le_right _ _
    have hstep : ((NewOTPService secret).IncrementRateLimit noFaults s u phone).2
        (rateKey phone) =
        some { val := .int (min ((n + 1 : Nat) : Int) maxInt64),
               expireAt := some (u + Minute) } := by
      have hcast : ((n + 1 : Nat) : Int) = (n : Int) + 1 := by push_cast; ring
      rw [hcast]
      simp only [OTPService.IncrementRateLimit, noFaults, Redis.Incr, hfind, RValue.asInt64,
        hrange, and_self, if_true]
      by_cases hsat : min (n : Int) maxInt64 = maxInt64
      · have hle : maxInt64 ≤ (n : Int) := by
          rcases min_choice (n : Int) maxInt64 with h | h
          · rw [h] at hsat; omega
          · exact (min_eq_right_iff.mp h)
        have h2 : min ((n : Int) + 1) maxInt64 = maxInt64 := min_eq_right (by omega)
        rw [h2]
        simp [hsat, Redis.Expire, Store.find, hs, Entry.live, hchain.1, Store.put]
      · have hlt : (n : Int) < maxInt64 := by
          by_contra hge
          exact hsat (min_eq_right (by omega))
        have h1 : min (n : Int) maxInt64 = n := min_eq_left (le_of_lt hlt)
        have h2 : min ((n : Int) + 1) maxInt64 = (n : Int) + 1 := min_eq_left (by omega)
        have hne : ¬ (n : Int) = maxInt64 := by omega
        rw [h2]
        simp [h1, hne, Redis.Expire, Store.find, Entry.live, Store.put, hchain.1]
    have := ih _ (n + 1) u (by omega) hstep hchain.2
    simp only [OTPService.incrementAll, this, List.length_cons]
    have e1 : n + 1 + rest.length = n + (rest.length + 1) := by omega
    rw [e1, List.getLast_cons (List.cons_ne_nil u rest)]

/-- `IsRateLimited` on a counter the store returns with a 64-bit value. -/
theorem isRateLimited_found (secret phone : String) (s : Store) (now : Nat) (e : Entry)
    (n : Int) (hfind : s.find now (rateKey phone) = some e) (hval : e.val.asInt64 = some n) :
    (NewOTPService secret).IsRateLimited noFaults s now phone = ((decide (10 ≤ n), none), s) := by
  simp only [OTPService.IsRateLimited, Redis.Get, noFaults, hfind, Reply.Int, hval]
  by_cases h0 : n = 0
  · simp [h0]
  · simp [h0]

/-- `IsRateLimited` on a key the store does not return. -/
theorem isRateLimited_absent (secret phone : String) (s : Store) (now : Nat)
    (hfind : s.find now (rateKey phone) = none) :
    (NewOTPService secret).IsRateLimited noFaults s now phone = ((false, none), s) := by
  simp [OTPService.IsRateLimited, Redis.Get, noFaults, hfind, Reply.Int]

/-- Claim C7: starting from no counter for the subject, after `n` calls of
`IncrementRateLimit`, each made within one minute of the one before,
`IsRateLimited` asked within a minute of the last increment answers true
exactly when `n ≥ 10`; asked more than a minute after the last increment it
answers false, the counter having expired. -/
theorem rate_limit_window (secret phone : String) (s : Store) (ts : List Nat) (t : Nat)
    (hs : s (rateKey phone) = none)
    (hchain : List.Chain' (fun a b => b ≤ a + Minute) ts) :
    ((∀ tl ∈ ts.getLast?, t ≤ tl + Minute) →
      ((NewOTPService secret).IsRateLimited noFaults
        ((NewOTPService secret).incrementAll s phone ts) t phone).1 =
        (decide (10 ≤ ts.length), none)) ∧
    ((∀ tl ∈ ts.getLast?, tl + Minute < t) →
      ((NewOTPService secret).IsRateLimited noFaults
        ((NewOTPService secret).incrementAll s phone ts) t phone).1 = (false, none)) := by
  cases ts with
  | nil =>
    have hfind : s.find t (rateKey phone) = none := by simp [Store.find, hs]
    simp [OTPService.incrementAll, isRateLimited_absent secret phone s t hfind]
  | cons t1 rest =>
    have hfirst : ((NewOTPService secret).IncrementRateLimit noFaults s t1 phone).2
        (rateKey phone) =
        some { val := .int (min ((1 : Nat) : Int) maxInt64), expireAt := some (t1 + Minute) } := by
      have : min ((1 : Nat) : Int) maxInt64 = 1 := by decide
      rw [this]
      simp [OTPService.IncrementRateLimit, noFaults, Redis.Incr, Redis.Expire, Store.find, hs,
        Store.put, Entry.live]
    have hkey := incrementAll_counter secret phone rest _ 1 t1 (le_refl _) hfirst hchain
    have hall : (NewOTPService secret).incrementAll s phone (t1 :: rest) =
        (NewOTPService secret).incrementAll
          ((NewOTPService secret).IncrementRateLimit noFaults s t1 phone).2 phone rest := rfl
    have hlast : (t1 :: rest).getLast? = some ((t1 :: rest).getLast (List.cons_ne_nil _ _)) :=
      List.getLast?_eq_getLast _ _
    have hmax : (10 : Int) ≤ maxInt64 := by decide
    have hmax0 : (0 : Int) ≤ maxInt64 := by decide
    have hmin : minInt64 ≤ 0 := by decide
    have hrange : (RValue.int (min ((1 + rest.length : Nat) : Int) maxInt64)).asInt64 =
        some (min ((1 + rest.length : Nat) : Int) maxInt64) := by
      have h1 : minInt64 ≤ min ((1 + rest.length : Nat) : Int) maxInt64 :=
        le_trans hmin (le_min (by omega) hmax0)
      have h2 : min ((1 + rest.length : Nat) : Int) maxInt64 ≤ maxInt64 := min_le_right _ _
      simp only [RValue.asInt64, h1, h2, and_self, if_true]
    rw [hall, hlast]
    constructor
    · intro hlive
      have hle := hlive _ rfl
      have hfind : ((NewOTPService secret).incrementAll
          ((NewOTPService secret).IncrementRateLimit noFaults s t1 phone).2 phone rest).find t
            (rateKey phone) =
          some { val := .int (min ((1 + rest.length : Nat) : Int) maxInt64),
                 expireAt := some ((t1 :: rest).getLast (List.cons_ne_nil _ _) + Minute) } := by
        simp only [Store.find, hkey, Entry.live, hle, decide_True, if_true]
      rw [isRateLimited_found secret phone _ t _ _ hfind hrange]
      have : (10 ≤ min ((1 + rest.length : Nat) : Int) maxInt64) ↔ 10 ≤ (t1 :: rest).length := by
        rw [le_min_iff, List.length_cons]
        constructor
        · intro h; omega
        · intro h; exact ⟨by omega, hmax⟩
      simp only [this]
    · intro hdead
      have hlt := hdead _ rfl
      have hfind : ((NewOTPService secret).incrementAll
          ((NewOTPService secret).IncrementRateLimit noFaults s t1 phone).2 phone rest).find t
            (rateKey phone) = none := by
        have : ¬ t ≤ (t1 :: rest).getLast (List.cons_ne_nil _ _) + Minute := by omega
        simp [Store.find, hkey, Entry.live, this]
      rw [isRateLimited_absent secret phone _ t hfind]

/-- Witness for C7: ten increments at instants 1 to 10 limit the subject at
instant 11. -/
theorem rate_limit_window_witness :
    ((NewOTPService "k").IsRateLimited noFaults
      ((NewOTPService "k").incrementAll Store.empty samplePhone
        [1, 2, 3, 4, 5, 6, 7, 8, 9, 10]) 11 samplePhone).1 = (true, none) :=
  (rate_limit_window "k" samplePhone Store.empty [1, 2, 3, 4, 5, 6, 7, 8, 9, 10] 11
    rfl (by simp [Minute])).1 (by decide)

/-- Claim C8: when the subject's counter is absent or holds a (64-bit)
integer, `IsRateLimited` returns without error, answers true exactly when the
counter is present with value at least 10, and leaves the store, the counter
and its expiry included, as it was. -/
theorem isRateLimited_reads_only (secret phone : String) (s : Store) (now : Nat)
    (e : Entry) (n : Int)
    (h : s.find now (rateKey phone) = none ∨
      (s.find now (rateKey phone) = some e ∧ e.val.asInt64 = some n)) :
    ((NewOTPService secret).IsRateLimited noFaults s now phone).2 = s ∧
    ((NewOTPService secret).IsRateLimited noFaults s now phone).1.2 = none ∧
    (((NewOTPService secret).IsRateLimited noFaults s now phone).1.1 = true ↔
      (s.find now (rateKey phone) = some e ∧ 10 ≤ n)) := by
  rcases h with h | ⟨hfind, hval⟩
  · rw [isRateLimited_absent secret phone s now h]
    simp [h]
  · rw [isRateLimited_found secret phone s now e n hfind hval]
    simp [hfind]

/-- Witness for C8: a counter at 10 that expires at instant 50, read at
instant 40. -/
theorem isRateLimited_reads_only_witness :
    ((NewOTPService "k").IsRateLimited noFaults
      (Store.empty.put (rateKey samplePhone) { val := .int 10, expireAt := some 50 })
      40 samplePhone).1.1 = true :=
  (isRateLimited_reads_only "k" samplePhone
    (Store.empty.put (rateKey samplePhone) { val := .int 10, expireAt := some 50 })
    40 { val := .int 10, expireAt := some 50 } 10
    (Or.inr ⟨by decide, by decide⟩)).2.2.mpr ⟨by decide, by decide⟩

/-- Counterexample to C9 as stated: a code is issued at instant 0 and a wrong
code is submitted one nanosecond later; the record written back has a TTL of
the full 5 minutes, one nanosecond more than its remaining validity. -/
theorem repersist_ttl_exceeds_validity :
    (((NewOTPService "k").VerifyOTP noFaults
        ((NewOTPService "k").GenerateAndStoreOTP (some 0) noFaults Store.empty 0
          samplePhone).2 1 samplePhone "000000").2.ttl 1 (otpKey samplePhone) =
      some 300000000000) ∧
    (((NewOTPService "k").VerifyOTP noFaults
        ((NewOTPService "k").GenerateAndStoreOTP (some 0) noFaults Store.empty 0
          samplePhone).2 1 samplePhone "000000").2.remaining 1 (otpKey samplePhone) =
      some 299999999999) := by
  decide

/-- Claim C9, amended: every write of an OTP record sets the TTL to the fixed
5-minute window.  At issuance this is the record's remaining validity
`ExpiresAt - now`; when `VerifyOTP` writes the record back after a mismatch
the TTL is again 5 minutes, while the remaining validity is what was left of
the unchanged `ExpiresAt`. -/
theorem otp_writes_use_fixed_ttl (secret phone c code : String) (rnd : Option Nat)
    (flt : Faults) (s0 s : Store) (t0 now : Nat) (e : Entry) (d : OTPData)
    (hissue : ((NewOTPService secret).GenerateAndStoreOTP rnd flt s0 t0 phone).1 = (c, none))
    (hfind : s.find now (otpKey phone) = some e) (hval : e.val = .otp d)
    (hexp : now ≤ d.ExpiresAt) (hatt : d.Attempts < 5) (hcode : code ≠ d.Code) :
    (((NewOTPService secret).GenerateAndStoreOTP rnd flt s0 t0 phone).2.ttl t0 (otpKey phone) =
        some (5 * Minute) ∧
      ((NewOTPService secret).GenerateAndStoreOTP rnd flt s0 t0 phone).2.remaining t0
        (otpKey phone) = some (5 * Minute)) ∧
    (((NewOTPService secret).VerifyOTP noFaults s now phone code).2.ttl now (otpKey phone) =
        some (5 * Minute) ∧
      ((NewOTPService secret).VerifyOTP noFaults s now phone code).2.remaining now
        (otpKey phone) = some (d.ExpiresAt - now)) := by
  constructor
  · rw [issue_ok secret phone c rnd flt s0 t0 hissue]
    simp [Store.ttl, Store.remaining, Store.find, Store.put, Entry.live, unmarshalOTP]
  · rw [verify_found secret s now phone code e d hfind hval]
    have h1 : ¬ now > d.ExpiresAt := by omega
    have h2 : ¬ d.Attempts ≥ 5 := by omega
    have h3 : ¬ d.Code = code := fun h => hcode h.symm
    simp only [h1, h2, h3, if_false]
    simp [Store.ttl, Store.remaining, Store.find, Store.put, Entry.live, unmarshalOTP]

/-- Witness for C9: issuance at instant 0, and "000000" against
`sampleRecord` at instant 15. -/
theorem otp_writes_use_fixed_ttl_witness :
    ((NewOTPService "k").VerifyOTP noFaults sampleStore 15 samplePhone "000000").2.ttl 15
        (otpKey samplePhone) = some (5 * Minute) ∧
      ((NewOTPService "k").VerifyOTP noFaults sampleStore 15 samplePhone "000000").2.remaining
        15 (otpKey samplePhone) = some (sampleRecord.ExpiresAt - 15) :=
  (otp_writes_use_fixed_ttl "k" samplePhone "100000" "000000" (some 0) noFaults Store.empty
    sampleStore 0 15 { val := .otp sampleRecord, expireAt := some 20 } sampleRecord
    (by decide) (by decide) rfl (by decide) (by decide) (by decide)).2

end Identity

/-! ## Properties of the invite engine -/

namespace Orchestrator

/-- Under the primary key of `invites`, the `UPDATE ... WHERE id = $1` of a
stored invite's id rewrites that row and no other. -/
theorem update_by_id_eq (invites : List Invite) (inv : Invite) (status : String)
    (hpk : (invites.map Invite.ID).Nodup) (hmem : inv ∈ invites) :
    invites.map (fun i => if i.ID = inv.ID then { i with Status := status } else i) =
      invites.map (fun i => if i = inv then { i with Status := status } else i) := by
  apply List.map_congr_left
  intro i hi
  by_cases h : i = inv
  · simp [h]
  · have : i.ID ≠ inv.ID := fun hid => h (List.inj_on_of_nodup_map hpk hi hmem hid)
    simp [h, this]

/-- Claim C10: for a PENDING invite with `now` not after `ExpiresAt` and a
user with no membership in the invite's room, when every store operation
succeeds `AcceptInvite` returns success with the new membership id, and the
committed rows differ from the prior ones by exactly one new
`room_memberships` row (invite's room, user, invite's role) with that id and
by the invite's status being ACCEPTED. -/
theorem accept_creates_membership (db : DB) (now : Nat) (newID : String)
    (req : AcceptInviteRequest) (inv : Invite)
    (hinv : db.invites.find? (fun i => i.Token = req.Token) = some inv)
    (hpk : (db.invites.map Invite.ID).Nodup)
    (hstatus : inv.Status = "PENDING") (hexp : now ≤ inv.ExpiresAt)
    (hnone : ∀ m ∈ db.room_memberships, ¬ (m.RoomID = inv.RoomID ∧ m.UserID = req.UserID))
    (hok : db.membershipViolation
      { ID := newID, RoomID := inv.RoomID, UserID := req.UserID, Role := inv.Role,
        CreatedAt := now } = none) :
    InviteService.AcceptInvite noFaults db now newID req =
      ((some { MembershipID := newID, Success := true, Message := "Successfully joined room" },
        none),
       { users := db.users,
         rooms := db.rooms,
         room_memberships := db.room_memberships ++
           [{ ID := newID, RoomID := inv.RoomID, UserID := req.UserID, Role := inv.Role,
              CreatedAt := now }],
         invites := db.invites.map
           (fun i => if i = inv then { i with Status := "ACCEPTED" } else i) }) := by
  have hmem : inv ∈ db.invites := List.mem_of_find?_eq_some hinv
  have hcount : (db.room_memberships.filter
      (fun m => decide (m.RoomID = inv.RoomID) && decide (m.UserID = req.UserID))).length = 0 := by
    rw [List.length_eq_zero, List.filter_eq_nil_iff]
    intro m hm
    simpa using hnone m hm
  have hexp' : ¬ now > inv.ExpiresAt := by omega
  rw [← update_by_id_eq db.invites inv "ACCEPTED" hpk hmem]
  simp [InviteService.AcceptInvite, DB.Begin, noFaults, Tx.QueryInvite, hinv, hstatus, hexp',
    Tx.CountMemberships, hcount, Tx.Exec, DB.run, hok, statusOK, Tx.Commit]

/-- Witness for C10: user "u2" accepts `sampleInvite` at instant 50. -/
theorem accept_creates_membership_witness :
    InviteService.AcceptInvite noFaults sampleDB 50 "m2" { Token := "tok1", UserID := "u2" } =
      ((some { MembershipID := "m2", Success := true, Message := "Successfully joined room" },
        none),
       { users := sampleDB.users,
         rooms := sampleDB.rooms,
         room_memberships := sampleDB.room_memberships ++
           [{ ID := "m2", RoomID := "r1", UserID := "u2", Role := "TENANT", CreatedAt := 50 }],
         invites := sampleDB.invites.map
           (fun i => if i = sampleInvite then { i with Status := "ACCEPTED" } else i) }) :=
  accept_creates_membership sampleDB 50 "m2" { Token := "tok1", UserID := "u2" } sampleInvite
    (by decide) (by decide) (by decide) (by decide) (by decide) (by decide)

/-- The two ways `AcceptInvite` can end: it leaves the committed rows alone, or
it found a PENDING, unexpired invite, the membership `INSERT` passed the
constraints, and it committed the new row and the ACCEPTED status. -/
theorem accept_cases (flt : Faults) (db : DB) (now : Nat) (newID : String)
    (req : AcceptInviteRequest) :
    ((InviteService.AcceptInvite flt db now newID req).2 = db ∧
      ((InviteService.AcceptInvite flt db now newID req).1.2 = none →
        ∃ inv, db.invites.find? (fun i => i.Token = req.Token) = some inv ∧
          (InviteService.AcceptInvite flt db now newID req).1.1 =
            some { MembershipID := "existing", Success := true,
                   Message := "User is already a member of this room" })) ∨
    (∃ inv, db.invites.find? (fun i => i.Token = req.Token) = some inv ∧
      inv.Status = "PENDING" ∧ now ≤ inv.ExpiresAt ∧
      db.membershipViolation
        { ID := newID, RoomID := inv.RoomID, UserID := req.UserID, Role := inv.Role,
          CreatedAt := now } = none ∧
      InviteService.AcceptInvite flt db now newID req =
        ((some { MembershipID := newID, Success := true,
                 Message := "Successfully joined room" }, none),
         { users := db.users,
           rooms := db.rooms,
           room_memberships := db.room_memberships ++
             [{ ID := newID, RoomID := inv.RoomID, UserID := req.UserID, Role := inv.Role,
                CreatedAt := now }],
           invites := db.invites.map
             (fun i => if i.ID = inv.ID then { i with Status := "ACCEPTED" } else i) })) := by
  unfold InviteService.AcceptInvite
  cases h0 : flt 0 with
  | some e => left; simp [DB.Begin]
  | none =>
    cases h1 : flt 1 with
    | some e => left; simp [DB.Begin, Tx.QueryInvite, h1, Tx.Rollback]
    | none =>
      cases hinv : db.invites.find? (fun i => i.Token = req.Token) with
      | none => left; simp [DB.Begin, Tx.QueryInvite, h1, hinv, Tx.Rollback]
      | some inv =>
        by_cases hst : inv.Status = "PENDING"
        swap
        · left; simp [DB.Begin, Tx.QueryInvite, h1, hinv, hst, Tx.Rollback]
        by_cases hexp : now > inv.ExpiresAt
        · left
          simp only [DB.Begin, Tx.QueryInvite, h1, hinv, hst, hexp, Tx.Rollback, Tx.Exec]
          cases flt 2 <;> simp [DB.run, statusOK]
        cases h2 : flt 2 with
        | some e =>
          left; simp [DB.Begin, Tx.QueryInvite, h1, hinv, hst, hexp, Tx.CountMemberships, h2,
            Tx.Rollback]
        | none =>
          by_cases hcount : (db.room_memberships.filter
              (fun m => decide (m.RoomID = inv.RoomID) && decide (m.UserID = req.UserID))).length > 0
          · left
            simp only [DB.Begin, Tx.QueryInvite, h1, hinv, hst, hexp, Tx.CountMemberships, h2,
              Tx.Rollback, Tx.Exec, hcount]
            cases flt 3 <;> simp [DB.run, statusOK]
          cases h3 : flt 3 with
          | some e =>
            left; simp [DB.Begin, Tx.QueryInvite, h1, hinv, hst, hexp, Tx.CountMemberships, h2,
              Tx.Rollback, Tx.Exec, hcount, h3]
          | none =>
            cases hviol : db.membershipViolation
                { ID := newID, RoomID := inv.RoomID, UserID := req.UserID, Role := inv.Role,
                  CreatedAt := now } with
            | some e =>
              left; simp [DB.Begin, Tx.QueryInvite, h1, hinv, hst, hexp, Tx.CountMemberships,
                h2, Tx.Rollback, Tx.Exec, hcount, h3, DB.run, hviol]
            | none =>
              cases h4 : flt 4 with
              | some e =>
                left; simp [DB.Begin, Tx.QueryInvite, h1, hinv, hst, hexp, Tx.CountMemberships,
                  h2, Tx.Rollback, Tx.Exec, hcount, h3, DB.run, hviol, h4]
              | none =>
                cases h5 : flt 5 with
                | some e =>
                  left; simp [DB.Begin, Tx.QueryInvite, h1, hinv, hst, hexp,
                    Tx.CountMemberships, h2, Tx.Rollback, Tx.Exec, hcount, h3, DB.run, hviol,
                    h4, statusOK, Tx.Commit, h5]
                | none =>
                  right
                  refine ⟨inv, rfl, hst, by omega, hviol, ?_⟩
                  simp [DB.Begin, Tx.QueryInvite, h1, hinv, hst, hexp, Tx.CountMemberships,
                    h2, Tx.Exec, hcount, h3, DB.run, hviol, h4, statusOK, Tx.Commit, h5]

/-- `AcceptInvite` up to the membership lookup, on a PENDING, unexpired invite
and a store that answers the first two round trips. -/
theorem accept_pending_lookup (flt : Faults) (db : DB) (now : Nat) (newID : String)
    (req : AcceptInviteRequest) (inv : Invite)
    (h0 : flt 0 = none) (h1 : flt 1 = none)
    (hinv : db.invites.find? (fun i => i.Token = req.Token) = some inv)
    (hstatus : inv.Status = "PENDING") (hexp : now ≤ inv.ExpiresAt) :
    InviteService.AcceptInvite flt db now newID req =
      match flt 2 with
      | some e => ((none, some (.wrap "failed to check membership" e)), db)
      | none =>
        if (db.room_memberships.filter
            (fun m => m.RoomID = inv.RoomID && m.UserID = req.UserID)).length > 0 then
          ((some { MembershipID := "existing", Success := true,
                   Message := "User is already a member of this room" }, none), db)
        else
          match flt 3 with
          | some e => ((none, some (.wrap "failed to create membership" e)), db)
          | none =>
            match db.membershipViolation
                { ID := newID, RoomID := inv.RoomID, UserID := req.UserID, Role := inv.Role,
                  CreatedAt := now } with
            | some e => ((none, some (.wrap "failed to create membership" e)), db)
            | none =>
              match flt 4 with
              | some e => ((none, some (.wrap "failed to update invite status" e)), db)
              | none =>
                match flt 5 with
                | some e => ((none, some (.wrap "failed to commit transaction" e)), db)
                | none =>
                  ((some { MembershipID := newID, Success := true,
                           Message := "Successfully joined room" }, none),
                   { users := db.users,
                     rooms := db.rooms,
                     room_memberships := db.room_memberships ++
                       [{ ID := newID, RoomID := inv.RoomID, UserID := req.UserID,
                          Role := inv.Role, CreatedAt := now }],
                     invites := db.invites.map
                       (fun i => if i.ID = inv.ID then { i with Status := "ACCEPTED" }
                         else i) }) := by
  have hexp' : ¬ now > inv.ExpiresAt := by omega
  unfold InviteService.AcceptInvite
  simp only [DB.Begin, h0, Tx.QueryInvite, h1, hinv, hstatus, hexp', Tx.CountMemberships,
    Tx.Rollback, Tx.Exec, ne_eq, not_true_eq_false, if_false]
  cases h2 : flt 2 with
  | some e => simp
  | none =>
    simp only []
    split_ifs with hcount
    · cases flt 3 <;> simp [DB.run, statusOK]
    · cases h3 : flt 3 with
      | some e => simp
      | none =>
        cases hviol : db.membershipViolation
            { ID := newID, RoomID := inv.RoomID, UserID := req.UserID, Role := inv.Role,
              CreatedAt := now } with
        | some e => simp [DB.run, hviol]
        | none =>
          cases h4 : flt 4 with
          | some e => simp [DB.run, hviol]
          | none =>
            cases h5 : flt 5 with
            | some e => simp [DB.run, hviol, statusOK, Tx.Commit, h5]
            | none => simp [DB.run, hviol, statusOK, Tx.Commit, h5]

/-- Claim C11: `AcceptInvite` fails with "invite not found" when no invite has
the given token, and with "invite is no longer valid" when the invite's status
is not PENDING; in both cases the committed rows, invites and memberships
alike, are those before the call. -/
theorem accept_rejects_unknown_or_settled (db : DB) (now : Nat) (newID : String)
    (req : AcceptInviteRequest) (inv : Invite) :
    (db.invites.find? (fun i => i.Token = req.Token) = none →
      InviteService.AcceptInvite noFaults db now newID req =
        ((none, some (.plain "invite not found")), db)) ∧
    (db.invites.find? (fun i => i.Token = req.Token) = some inv →
      inv.Status ≠ "PENDING" →
      InviteService.AcceptInvite noFaults db now newID req =
        ((none, some (.plain "invite is no longer valid")), db)) := by
  constructor
  · intro hinv
    simp [InviteService.AcceptInvite, DB.Begin, noFaults, Tx.QueryInvite, hinv, Tx.Rollback]
  · intro hinv hst
    simp [InviteService.AcceptInvite, DB.Begin, noFaults, Tx.QueryInvite, hinv, hst,
      Tx.Rollback]

/-- Witness for C11: an unknown token, and a second accept of `sampleInvite`
after user "u2" accepted it. -/
theorem accept_rejects_unknown_or_settled_witness :
    InviteService.AcceptInvite noFaults sampleDB 50 "m2" { Token := "tok9", UserID := "u2" } =
        ((none, some (.plain "invite not found")), sampleDB) ∧
      InviteService.AcceptInvite noFaults
          (InviteService.AcceptInvite noFaults sampleDB 50 "m2"
            { Token := "tok1", UserID := "u2" }).2 51 "m3" { Token := "tok1", UserID := "u2" } =
        ((none, some (.plain "invite is no longer valid")),
          (InviteService.AcceptInvite noFaults sampleDB 50 "m2"
            { Token := "tok1", UserID := "u2" }).2) :=
  ⟨(accept_rejects_unknown_or_settled sampleDB 50 "m2" { Token := "tok9", UserID := "u2" }
      sampleInvite).1 (by decide),
   (accept_rejects_unknown_or_settled
      (InviteService.AcceptInvite noFaults sampleDB 50 "m2"
        { Token := "tok1", UserID := "u2" }).2 51 "m3" { Token := "tok1", UserID := "u2" }
      { sampleInvite with Status := "ACCEPTED" }).2 (by decide) (by decide)⟩

/-- Claim C12, the code at the failing input: user "u2" presents `sampleInvite`
at instant 101, after its expiry at 100.  The call fails with "invite has
expired", but the `UPDATE` to EXPIRED is rolled back with the transaction:
the committed invite is still PENDING, and a later call fails with "invite has
expired" again, not with "invite is no longer valid". -/
theorem expired_status_not_persisted :
    InviteService.AcceptInvite noFaults sampleDB 101 "m2" { Token := "tok1", UserID := "u2" } =
        ((none, some (.plain "invite has expired")), sampleDB) ∧
      (InviteService.AcceptInvite noFaults sampleDB 101 "m2"
          { Token := "tok1", UserID := "u2" }).2.invites.map Invite.Status = ["PENDING"] ∧
      (InviteService.AcceptInvite noFaults
          (InviteService.AcceptInvite noFaults sampleDB 101 "m2"
            { Token := "tok1", UserID := "u2" }).2 102 "m3"
          { Token := "tok1", UserID := "u2" }).1 =
        (none, some (.plain "invite has expired")) := by
  decide

/-- Claim C13: an `AcceptInvite` call made after the `ExpiresAt` of the invite
it names never creates a membership, whatever the invite's status, the user
and the store's failures: `room_memberships` after the call is the table
before it. -/
theorem accept_after_expiry_creates_nothing (flt : Faults) (db : DB) (now : Nat)
    (newID : String) (req : AcceptInviteRequest) (inv : Invite)
    (hinv : db.invites.find? (fun i => i.Token = req.Token) = some inv)
    (hexp : inv.ExpiresAt < now) :
    (InviteService.AcceptInvite flt db now newID req).2.room_memberships =
      db.room_memberships := by
  rcases accept_cases flt db now newID req with h | ⟨inv2, hinv2, _, hle, _, _⟩
  · rw [h.1]
  · rw [hinv] at hinv2
    cases hinv2
    omega

/-- Witness for C13: user "u2" presents `sampleInvite` at instant 101. -/
theorem accept_after_expiry_creates_nothing_witness :
    (InviteService.AcceptInvite noFaults sampleDB 101 "m2"
      { Token := "tok1", UserID := "u2" }).2.room_memberships = sampleDB.room_memberships :=
  accept_after_expiry_creates_nothing noFaults sampleDB 101 "m2"
    { Token := "tok1", UserID := "u2" } sampleInvite (by decide) (by decide)

/-- Claim C14, the code at the failing input: user "u1", already the landlord
of room "r1", presents `sampleInvite` at instant 50.  The call reports
success, but it returns without `Commit`, so the `UPDATE` to ACCEPTED is rolled
back: the committed invite is still PENDING. -/
theorem already_member_status_not_persisted :
    InviteService.AcceptInvite noFaults sampleDB 50 "m2" { Token := "tok1", UserID := "u1" } =
        ((some { MembershipID := "existing", Success := true,
                 Message := "User is already a member of this room" }, none), sampleDB) ∧
      (InviteService.AcceptInvite noFaults sampleDB 50 "m2"
          { Token := "tok1", UserID := "u1" }).2.invites.map Invite.Status = ["PENDING"] := by
  decide

/-- Counterexample to C15 as stated: user "u1" holds the membership row with
id "m1" in room "r1"; the successful result of accepting `sampleInvite` names
the membership "existing", not "m1". -/
theorem already_member_id_not_returned :
    (sampleDB.room_memberships.filter
        (fun m => m.RoomID = "r1" && m.UserID = "u1")).map RoomMembership.ID = ["m1"] ∧
      (InviteService.AcceptInvite noFaults sampleDB 50 "m2"
          { Token := "tok1", UserID := "u1" }).1.1.map AcceptInviteResponse.MembershipID =
        some "existing" := by
  decide

/-- Claim C15, amended: for a PENDING, unexpired invite and a user who already
has a membership in the invite's room, `AcceptInvite` succeeds with the fixed
text "existing" as `MembershipID`, and no membership row is created. -/
theorem already_member_returns_placeholder (db : DB) (now : Nat) (newID : String)
    (req : AcceptInviteRequest) (inv : Invite) (m : RoomMembership)
    (hinv : db.invites.find? (fun i => i.Token = req.Token) = some inv)
    (hstatus : inv.Status = "PENDING") (hexp : now ≤ inv.ExpiresAt)
    (hm : m ∈ db.room_memberships) (hroom : m.RoomID = inv.RoomID)
    (huser : m.UserID = req.UserID) :
    (InviteService.AcceptInvite noFaults db now newID req).1 =
        (some { MembershipID := "existing", Success := true,
                Message := "User is already a member of this room" }, none) ∧
      (InviteService.AcceptInvite noFaults db now newID req).2.room_memberships =
        db.room_memberships := by
  have hcount : (db.room_memberships.filter
      (fun m => decide (m.RoomID = inv.RoomID) && decide (m.UserID = req.UserID))).length > 0 := by
    apply List.length_pos_of_mem (a := m)
    simp [List.mem_filter, hm, hroom, huser]
  rw [accept_pending_lookup noFaults db now newID req inv rfl rfl hinv hstatus hexp]
  simp [noFaults, hcount]

/-- Witness for C15: user "u1", landlord of room "r1", accepts `sampleInvite`. -/
theorem already_member_returns_placeholder_witness :
    (InviteService.AcceptInvite noFaults sampleDB 50 "m2"
        { Token := "tok1", UserID := "u1" }).1 =
        (some { MembershipID := "existing", Success := true,
                Message := "User is already a member of this room" }, none) ∧
      (InviteService.AcceptInvite noFaults sampleDB 50 "m2"
        { Token := "tok1", UserID := "u1" }).2.room_memberships = sampleDB.room_memberships :=
  already_member_returns_placeholder sampleDB 50 "m2" { Token := "tok1", UserID := "u1" }
    sampleInvite { ID := "m1", RoomID := "r1", UserID := "u1", Role := "LANDLORD",
                   CreatedAt := 0 }
    (by decide) (by decide) (by decide) (by decide) (by decide) (by decide)

/-- Counterexample to C16 as stated: user "u1", already the landlord of room
"r1", presents `sampleInvite` and the status `UPDATE` fails; its error is
dropped and `AcceptInvite` returns success, not an error (the committed rows
are those before the call). -/
theorem member_update_failure_reports_success :
    InviteService.AcceptInvite (fun i => if i = 3 then some (.net "timeout") else none)
        sampleDB 50 "m2" { Token := "tok1", UserID := "u1" } =
      ((some { MembershipID := "existing", Success := true,
               Message := "User is already a member of this room" }, none), sampleDB) := by
  decide

/-- Claim C16, amended: on a PENDING, unexpired invite, whenever the membership
lookup fails, or, for a user with no membership in the invite's room, the
membership `INSERT`, the status `UPDATE` or the `Commit` fails, `AcceptInvite`
returns an error and no response, and the committed invites and memberships
are those before the call. -/
theorem accept_failure_rolls_back (flt : Faults) (db : DB) (now : Nat) (newID : String)
    (req : AcceptInviteRequest) (inv : Invite)
    (hinv : db.invites.find? (fun i => i.Token = req.Token) = some inv)
    (hstatus : inv.Status = "PENDING") (hexp : now ≤ inv.ExpiresAt)
    (hfail : flt 2 ≠ none ∨
      ((∀ m ∈ db.room_memberships, ¬ (m.RoomID = inv.RoomID ∧ m.UserID = req.UserID)) ∧
        (flt 3 ≠ none ∨
         db.membershipViolation
           { ID := newID, RoomID := inv.RoomID, UserID := req.UserID, Role := inv.Role,
             CreatedAt := now } ≠ none ∨
         flt 4 ≠ none ∨ flt 5 ≠ none))) :
    (InviteService.AcceptInvite flt db now newID req).1.1 = none ∧
      (InviteService.AcceptInvite flt db now newID req).1.2 ≠ none ∧
      (InviteService.AcceptInvite flt db now newID req).2 = db := by
  cases h0 : flt 0 with
  | some e => simp [InviteService.AcceptInvite, DB.Begin, h0]
  | none =>
    cases h1 : flt 1 with
    | some e =>
      simp [InviteService.AcceptInvite, DB.Begin, h0, Tx.QueryInvite, h1, Tx.Rollback]
    | none =>
      rw [accept_pending_lookup flt db now newID req inv h0 h1 hinv hstatus hexp]
      rcases hfail with h2 | ⟨hnone, hrest⟩
      · cases h2' : flt 2 with
        | none => exact absurd h2' h2
        | some e => simp
      · have hcount : ¬ (db.room_memberships.filter
            (fun m => decide (m.RoomID = inv.RoomID) &&
              decide (m.UserID = req.UserID))).length > 0 := by
          rw [not_lt, Nat.le_zero, List.length_eq_zero, List.filter_eq_nil_iff]
          intro m hm
          simpa using hnone m hm
        cases flt 2 with
        | some e => simp
        | none =>
          simp only [hcount, if_false]
          cases h3 : flt 3 with
          | some e => simp
          | none =>
            cases hv : db.membershipViolation
                { ID := newID, RoomID := inv.RoomID, UserID := req.UserID,
                  Role := inv.Role, CreatedAt := now } with
            | some e => simp
            | none =>
              cases h4 : flt 4 with
              | some e => simp
              | none =>
                cases h5 : flt 5 with
                | some e => simp
                | none => simp [h3, hv, h4, h5] at hrest

/-- Witness for C16: the `Commit` of user "u2" accepting `sampleInvite` fails. -/
theorem accept_failure_rolls_back_witness :
    (InviteService.AcceptInvite (fun i => if i = 5 then some (.net "timeout") else none)
        sampleDB 50 "m2" { Token := "tok1", UserID := "u2" }).1.1 = none ∧
      (InviteService.AcceptInvite (fun i => if i = 5 then some (.net "timeout") else none)
        sampleDB 50 "m2" { Token := "tok1", UserID := "u2" }).1.2 ≠ none ∧
      (InviteService.AcceptInvite (fun i => if i = 5 then some (.net "timeout") else none)
        sampleDB 50 "m2" { Token := "tok1", UserID := "u2" }).2 = sampleDB :=
  accept_failure_rolls_back (fun i => if i = 5 then some (.net "timeout") else none)
    sampleDB 50 "m2" { Token := "tok1", UserID := "u2" } sampleInvite
    (by decide) (by decide) (by decide)
    (Or.inr ⟨by decide, Or.inr (Or.inr (Or.inr (by decide)))⟩)

/-- Counterexample to C17 as stated: the store reports a violation of
`UNIQUE (room_id, user_id)` on the membership `INSERT` of user "u2" accepting
`sampleInvite`; `AcceptInvite` returns the error "failed to create membership"
and no response. -/
theorem unique_violation_is_an_error :
    InviteService.AcceptInvite uniqueViolationOnInsert sampleDB 50 "m2"
        { Token := "tok1", UserID := "u2" } =
      ((none, some (.wrap "failed to create membership"
          (.violates "room_memberships_room_id_user_id_key"))), sampleDB) := by
  decide

/-- Claim C17, amended: if the store reports a uniqueness violation on
(room_id, user_id) when `AcceptInvite` inserts the membership row, `AcceptInvite`
returns the error "failed to create membership", which wraps the store's
error, returns no response and commits nothing. -/
theorem unique_violation_fails_accept (flt : Faults) (db : DB) (now : Nat) (newID : String)
    (req : AcceptInviteRequest) (inv : Invite)
    (h0 : flt 0 = none) (h1 : flt 1 = none) (h2 : flt 2 = none)
    (hinv : db.invites.find? (fun i => i.Token = req.Token) = some inv)
    (hstatus : inv.Status = "PENDING") (hexp : now ≤ inv.ExpiresAt)
    (hnone : ∀ m ∈ db.room_memberships, ¬ (m.RoomID = inv.RoomID ∧ m.UserID = req.UserID))
    (h3 : flt 3 = some (.violates "room_memberships_room_id_user_id_key")) :
    InviteService.AcceptInvite flt db now newID req =
      ((none, some (.wrap "failed to create membership"
          (.violates "room_memberships_room_id_user_id_key"))), db) := by
  have hcount : ¬ (db.room_memberships.filter
      (fun m => decide (m.RoomID = inv.RoomID) &&
        decide (m.UserID = req.UserID))).length > 0 := by
    rw [not_lt, Nat.le_zero, List.length_eq_zero, List.filter_eq_nil_iff]
    intro m hm
    simpa using hnone m hm
  rw [accept_pending_lookup flt db now newID req inv h0 h1 hinv hstatus hexp]
  simp only [h2, hcount, if_false, h3]

/-- Witness for C17: the store of `uniqueViolationOnInsert`, user "u2" and
`sampleInvite`. -/
theorem unique_violation_fails_accept_witness :
    (InviteService.AcceptInvite uniqueViolationOnInsert sampleDB 50 "m2"
        { Token := "tok1", UserID := "u2" }).1 =
      (none, some (.wrap "failed to create membership"
          (.violates "room_memberships_room_id_user_id_key"))) :=
  congrArg Prod.fst
    (unique_violation_fails_accept uniqueViolationOnInsert sampleDB 50 "m2"
      { Token := "tok1", UserID := "u2" } sampleInvite
      (by decide) (by decide) (by decide) (by decide) (by decide) (by decide) (by decide)
      (by decide))

/-- A membership that passes the constraints shares its (room_id, user_id)
with no stored row. -/
theorem membershipViolation_none (db : DB) (m : RoomMembership)
    (h : db.membershipViolation m = none) :
    ∀ x ∈ db.room_memberships, ¬ (x.RoomID = m.RoomID ∧ x.UserID = m.UserID) := by
  intro x hx hxm
  unfold DB.membershipViolation at h
  split_ifs at h with h1 h2 h3
  apply h3
  rw [List.any_eq_true]
  exact ⟨x, hx, by simp [hxm.1, hxm.2]⟩

/-- An invite that passes the constraints has an id no stored invite has. -/
theorem inviteViolation_none (db : DB) (i : Invite) (h : db.inviteViolation i = none) :
    ∀ x ∈ db.invites, x.ID ≠ i.ID := by
  intro x hx hxi
  unfold DB.inviteViolation at h
  split_ifs at h with h1 h2 h3
  apply h3
  rw [List.any_eq_true]
  exact ⟨x, hx, by simp [hxi]⟩

/-- Appending a row that passes the constraints keeps (room_id, user_id)
unique. -/
theorem uniqueMembers_append (db : DB) (m : RoomMembership) (rooms : List Room)
    (invites : List Invite) (hdb : db.UniqueMembers)
    (h : ∀ x ∈ db.room_memberships, ¬ (x.RoomID = m.RoomID ∧ x.UserID = m.UserID)) :
    DB.UniqueMembers { users := db.users, rooms := rooms,
                       room_memberships := db.room_memberships ++ [m],
                       invites := invites } := by
  unfold DB.UniqueMembers at *
  rw [List.pairwise_append]
  refine ⟨hdb, List.pairwise_singleton _ _, ?_⟩
  intro a ha b hb
  rw [List.mem_singleton] at hb
  subst hb
  exact h a ha

/-- The two ways `CreateRoom` can end: it leaves the committed rows alone, or it
committed the room and the creator's membership, both having passed the
constraints. -/
theorem createRoom_cases (flt : Faults) (db : DB) (now : Nat) (roomID membershipID : String)
    (req : CreateRoomRequest) :
    (RoomService.CreateRoom flt db now roomID membershipID req).2 = db ∨
    ((∀ x ∈ db.room_memberships, ¬ (x.RoomID = roomID ∧ x.UserID = req.CreatorUserID)) ∧
      (RoomService.CreateRoom flt db now roomID membershipID req).2 =
        { users := db.users,
          rooms := db.rooms ++
            [{ ID := roomID, Name := req.Name, OwnerUserID := req.CreatorUserID,
               CreatedAt := now }],
          room_memberships := db.room_memberships ++
            [{ ID := membershipID, RoomID := roomID, UserID := req.CreatorUserID,
               Role := req.Role, CreatedAt := now }],
          invites := db.invites }) := by
  unfold RoomService.CreateRoom
  cases h0 : flt 0 with
  | some e => left; simp [DB.Begin]
  | none =>
    cases h1 : flt 1 with
    | some e => left; simp [DB.Begin, Tx.Exec, h1, Tx.Rollback]
    | none =>
      cases hr : db.roomViolation
          { ID := roomID, Name := req.Name, OwnerUserID := req.CreatorUserID,
            CreatedAt := now } with
      | some e => left; simp [DB.Begin, Tx.Exec, h1, DB.run, hr, Tx.Rollback]
      | none =>
        cases h2 : flt 2 with
        | some e => left; simp [DB.Begin, Tx.Exec, h1, DB.run, hr, h2, Tx.Rollback]
        | none =>
          cases hm : DB.membershipViolation
              { users := db.users,
                rooms := db.rooms ++
                  [{ ID := roomID, Name := req.Name, OwnerUserID := req.CreatorUserID,
                     CreatedAt := now }],
                room_memberships := db.room_memberships,
                invites := db.invites }
              { ID := membershipID, RoomID := roomID, UserID := req.CreatorUserID,
                Role := req.Role, CreatedAt := now } with
          | some e => left; simp [DB.Begin, Tx.Exec, h1, DB.run, hr, h2, hm, Tx.Rollback]
          | none =>
            cases h3 : flt 3 with
            | some e =>
              left; simp [DB.Begin, Tx.Exec, h1, DB.run, hr, h2, hm, Tx.Commit, h3]
            | none =>
              right
              refine ⟨membershipViolation_none _ _ hm, ?_⟩
              simp [DB.Begin, Tx.Exec, h1, DB.run, hr, h2, hm, Tx.Commit, h3]

/-- The two ways `CreateInvite` can end: it leaves the committed rows alone, or
it committed the new PENDING invite, which passed the constraints. -/
theorem createInvite_cases (flt : Faults) (db : DB) (now : Nat) (token inviteID : String)
    (req : CreateInviteRequest) :
    ((InviteService.CreateInvite flt db now token inviteID req).2 = db ∧
      (InviteService.CreateInvite flt db now token inviteID req).1.2 ≠ none) ∨
    (db.inviteViolation
        { ID := inviteID, RoomID := req.RoomID, PhoneE164 := req.Phone, Role := req.Role,
          Token := token, Status := "PENDING", ExpiresAt := now + 7 * 24 * Hour,
          CreatedAt := now } = none ∧
      InviteService.CreateInvite flt db now token inviteID req =
        ((some { InviteID := inviteID, Token := token, Success := true,
                 Message := "Invite created successfully" }, none),
         { users := db.users,
           rooms := db.rooms,
           room_memberships := db.room_memberships,
           invites := db.invites ++
             [{ ID := inviteID, RoomID := req.RoomID, PhoneE164 := req.Phone,
                Role := req.Role, Token := token, Status := "PENDING",
                ExpiresAt := now + 7 * 24 * Hour, CreatedAt := now }] })) := by
  unfold InviteService.CreateInvite
  cases h0 : flt 0 with
  | some e => left; simp [DB.Exec]
  | none =>
    cases hv : db.inviteViolation
        { ID := inviteID, RoomID := req.RoomID, PhoneE164 := req.Phone, Role := req.Role,
          Token := token, Status := "PENDING", ExpiresAt := now + 7 * 24 * Hour,
          CreatedAt := now } with
    | some e => left; simp [DB.Exec, DB.run, hv]
    | none => right; simp [DB.Exec, DB.run, hv]

/-- One call keeps (room_id, user_id) unique. -/
theorem uniqueMembers_call (db : DB) (c : Call) (hdb : db.UniqueMembers) :
    (db.call c).UniqueMembers := by
  cases c with
  | createRoom flt now roomID membershipID req =>
    rcases createRoom_cases flt db now roomID membershipID req with h | ⟨hfresh, h⟩
    · simp only [DB.call, h]; exact hdb
    · simp only [DB.call, h]
      exact uniqueMembers_append db _ _ _ hdb hfresh
  | createInvite flt now token inviteID req =>
    rcases createInvite_cases flt db now token inviteID req with h | ⟨_, h⟩
    · simp only [DB.call, h.1]; exact hdb
    · simp only [DB.call, h]; exact hdb
  | acceptInvite flt now newID req =>
    rcases accept_cases flt db now newID req with h | ⟨inv, _, _, _, hviol, h⟩
    · simp only [DB.call, h.1]; exact hdb
    · simp only [DB.call, h]
      exact uniqueMembers_append db _ _ _ hdb (membershipViolation_none db _ hviol)

/-- Any sequence of calls keeps (room_id, user_id) unique. -/
theorem uniqueMembers_calls (cs : List Call) :
    ∀ db : DB, db.UniqueMembers → (db.calls cs).UniqueMembers := by
  induction cs with
  | nil => intro db h; exact h
  | cons c rest ih =>
    intro db h
    exact ih (db.call c) (uniqueMembers_call db c h)

/-- Claim C19: in every state reached from a database with no rooms,
memberships or invites (whatever its `users` rows) by any sequence of
`CreateRoom`, `CreateInvite` and `AcceptInvite` calls, whatever the store's
failures and the identifiers drawn, no two `room_memberships` rows share the
pair (room_id, user_id). -/
theorem reachable_memberships_unique (users : List String) (cs : List Call) :
    (DB.calls { users := users, rooms := [], room_memberships := [], invites := [] }
      cs).UniqueMembers ∧
    (DB.empty.calls cs).UniqueMembers :=
  ⟨uniqueMembers_calls cs _ List.Pairwise.nil, uniqueMembers_calls cs _ List.Pairwise.nil⟩

/-- A reachable state of C19 with two memberships: "u1" creates room "r1",
invites a tenant, and "u2" accepts. -/
theorem reachable_memberships_sample :
    ((DB.calls { users := ["u1", "u2"], rooms := [], room_memberships := [], invites := [] }
      [.createRoom noFaults 0 "r1" "m1" { Name := "Flat 1", CreatorUserID := "u1",
                                          Role := "LANDLORD" },
       .createInvite noFaults 1 "tok1" "i1" { Phone := "+15551234567", Role := "TENANT",
                                              InviterUserID := "u1", RoomID := "r1" },
       .acceptInvite noFaults 2 "m2" { Token := "tok1", UserID := "u2" }]).room_memberships.map
      (fun m => (m.RoomID, m.UserID))) = [("r1", "u1"), ("r1", "u2")] := by
  decide

/-- Under the primary key of `invites`, a stored row is determined by its id. -/
theorem invite_eq_of_id (db : DB) (hpk : db.UniqueInviteIDs) (i j : Invite)
    (hi : i ∈ db.invites) (hj : j ∈ db.invites) (hid : j.ID = i.ID) : j = i :=
  List.inj_on_of_nodup_map hpk hj hi hid

/-- Claim C20: for every stored invite and every call (`CreateInvite`,
`AcceptInvite`, and `CreateRoom` as well), the invite is still stored after the
call under its id, with the same token, and with the same status unless the
status went from PENDING to ACCEPTED or from PENDING to EXPIRED; an invite
that was ACCEPTED or EXPIRED keeps its status. -/
theorem invite_status_monotone (db : DB) (c : Call) (i : Invite)
    (hpk : db.UniqueInviteIDs) (hi : i ∈ db.invites) :
    (∃ j ∈ (db.call c).invites, j.ID = i.ID) ∧
    ∀ j ∈ (db.call c).invites, j.ID = i.ID →
      i.StepsTo j ∧ ((i.Status = "ACCEPTED" ∨ i.Status = "EXPIRED") → j.Status = i.Status) := by
  have hsame : ∀ j ∈ db.invites, j.ID = i.ID →
      i.StepsTo j ∧ ((i.Status = "ACCEPTED" ∨ i.Status = "EXPIRED") → j.Status = i.Status) := by
    intro j hj hid
    rw [invite_eq_of_id db hpk i j hi hj hid]
    exact ⟨⟨rfl, rfl, Or.inl rfl⟩, fun _ => rfl⟩
  cases c with
  | createRoom flt now roomID membershipID req =>
    rcases createRoom_cases flt db now roomID membershipID req with h | ⟨_, h⟩
    · simp only [DB.call, h]; exact ⟨⟨i, hi, rfl⟩, hsame⟩
    · simp only [DB.call, h]; exact ⟨⟨i, hi, rfl⟩, hsame⟩
  | createInvite flt now token inviteID req =>
    rcases createInvite_cases flt db now token inviteID req with h | ⟨hv, h⟩
    · simp only [DB.call, h.1]; exact ⟨⟨i, hi, rfl⟩, hsame⟩
    · simp only [DB.call, h]
      refine ⟨⟨i, List.mem_append_left _ hi, rfl⟩, ?_⟩
      intro j hj hid
      rw [List.mem_append, List.mem_singleton] at hj
      rcases hj with hj | hj
      · exact hsame j hj hid
      · exfalso
        apply inviteViolation_none db _ hv i hi
        rw [← hid, hj]
  | acceptInvite flt now newID req =>
    rcases accept_cases flt db now newID req with h | ⟨inv, hinv, hst, _, _, h⟩
    · simp only [DB.call, h.1]; exact ⟨⟨i, hi, rfl⟩, hsame⟩
    · simp only [DB.call, h]
      have hmem : inv ∈ db.invites := List.mem_of_find?_eq_some hinv
      constructor
      · refine ⟨if i.ID = inv.ID then { i with Status := "ACCEPTED" } else i,
          List.mem_map.mpr ⟨i, hi, rfl⟩, ?_⟩
        split_ifs <;> rfl
      · intro j hj hid
        obtain ⟨x, hx, hxj⟩ := List.mem_map.mp hj
        have hxid : x.ID = i.ID := by
          rw [← hid, ← hxj]
          split_ifs <;> rfl
        have hxi : x = i := invite_eq_of_id db hpk i x hi hx hxid
        subst hxi
        by_cases hinvid : x.ID = inv.ID
        · have hxinv : x = inv := invite_eq_of_id db hpk inv x hmem hx hinvid
          subst hxinv
          rw [if_pos hinvid] at hxj
          subst hxj
          refine ⟨⟨rfl, rfl, Or.inr ⟨hst, Or.inl rfl⟩⟩, ?_⟩
          intro hsettled
          rcases hsettled with hs | hs <;> rw [hst] at hs <;> exact absurd hs (by decide)
        · rw [if_neg hinvid] at hxj
          subst hxj
          exact ⟨⟨rfl, rfl, Or.inl rfl⟩, fun _ => rfl⟩

/-- Witness for C20: `sampleInvite` in `sampleDB`, when user "u2" accepts it,
goes from PENDING to ACCEPTED under the same id and token. -/
theorem invite_status_monotone_witness :
    sampleInvite.StepsTo { sampleInvite with Status := "ACCEPTED" } :=
  ((invite_status_monotone sampleDB
    (.acceptInvite noFaults 50 "m2" { Token := "tok1", UserID := "u2" }) sampleInvite
    (by unfold DB.UniqueInviteIDs; decide) (by decide)).2
      { sampleInvite with Status := "ACCEPTED" } (by decide) rfl).1

end Orchestrator

/-! ## Properties of the phone and code utilities -/

namespace Identity

/-- A decimal digit takes one byte in UTF-8. -/
theorem utf8Size_of_isDigit (c : Char) (h : c.isDigit = true) : c.utf8Size = 1 := by
  simp only [Char.isDigit, Bool.and_eq_true, decide_eq_true_eq] at h
  have h2 : c.val ≤ 127 := by
    have h1 : c.val.toNat ≤ 57 := h.2
    show c.val.toNat ≤ 127
    omega
  simp [Char.utf8Size, h2]

/-- Go's `len` of a text of decimal digits is its number of characters. -/
theorem utf8ByteSize_digits (l : List Char) (h : ∀ c ∈ l, c.isDigit = true) :
    (String.mk l).utf8ByteSize = l.length := by
  induction l with
  | nil => rfl
  | cons c cs ih =>
    have hc := utf8Size_of_isDigit c (h c (List.mem_cons_self _ _))
    have hcs := ih (fun x hx => h x (List.mem_cons_of_mem _ hx))
    simp only [String.utf8ByteSize, String.utf8ByteSize.go, List.length_cons] at hcs ⊢
    omega

/-- What `NormalizePhone` returns, in terms of the digits `l` of its input. -/
theorem normalize_eq (phone : String) :
    NormalizePhone phone =
      if (phone.data.filter (fun c => c.isDigit)).length = 10 then
        (String.mk ('+' :: '1' :: phone.data.filter (fun c => c.isDigit)), none)
      else if (phone.data.filter (fun c => c.isDigit)).length = 11 ∧
          (phone.data.filter (fun c => c.isDigit)).head? = some '1' then
        (String.mk ('+' :: phone.data.filter (fun c => c.isDigit)), none)
      else if (phone.data.filter (fun c => c.isDigit)).length > 11 then
        (String.mk ('+' :: phone.data.filter (fun c => c.isDigit)), none)
      else ("", some (.plain ("invalid phone number format: " ++ phone))) := by
  have hdig : ∀ c ∈ phone.data.filter (fun c => c.isDigit), c.isDigit = true := by
    intro c hc
    exact (List.mem_filter.mp hc).2
  have hsize := utf8ByteSize_digits _ hdig
  unfold NormalizePhone stripNonDigits
  simp only [hsize]
  have hget : (String.mk (phone.data.filter (fun c => c.isDigit))).get 0 = '1' ↔
      (phone.data.filter (fun c => c.isDigit)).head? = some '1' ∨
        ((phone.data.filter (fun c => c.isDigit)) = [] ∧ (default : Char) = '1') := by
    cases phone.data.filter (fun c => c.isDigit) with
    | nil => simp [String.get, String.utf8GetAux]
    | cons a as => simp [String.get, String.utf8GetAux]
  have hdef : ¬ (default : Char) = '1' := by decide
  by_cases h10 : (phone.data.filter (fun c => c.isDigit)).length = 10
  · simp only [h10, if_true]
    rfl
  · simp only [h10, if_false]
    by_cases h11 : (phone.data.filter (fun c => c.isDigit)).length = 11
    · have hne : phone.data.filter (fun c => c.isDigit) ≠ [] := by
        intro h; rw [h] at h11; simp at h11
      simp only [h11, true_and, hget, hne, false_and, or_false]
      split_ifs <;> rfl
    · simp only [h11, false_and, if_false]
      split_ifs <;> rfl

/-- The digits of a normalized phone: those of "+" followed by digits are
these digits. -/
theorem filter_digits_plus (l : List Char) (h : ∀ c ∈ l, c.isDigit = true) :
    ('+' :: l).filter (fun c => c.isDigit) = l := by
  have hplus : ('+' : Char).isDigit = false := by decide
  rw [List.filter_cons_of_neg (by simp [hplus])]
  exact List.filter_eq_self.mpr h

/-- `NormalizePhone` returns its own results unchanged. -/
theorem normalize_idempotent (p q : String) (h : NormalizePhone p = (q, none)) :
    NormalizePhone q = (q, none) := by
  have hdig : ∀ c ∈ p.data.filter (fun c => c.isDigit), c.isDigit = true := by
    intro c hc
    exact (List.mem_filter.mp hc).2
  rw [normalize_eq] at h
  generalize p.data.filter (fun c => c.isDigit) = l at h hdig
  have h1 : ('1' : Char).isDigit = true := by decide
  split_ifs at h with h10 h11 h12
  · have hq : q = String.mk ('+' :: '1' :: l) := (Prod.mk.inj h).1.symm
    have hf : q.data.filter (fun c => c.isDigit) = '1' :: l := by
      rw [hq]
      exact filter_digits_plus ('1' :: l) (by
        intro c hc
        rcases List.mem_cons.mp hc with hc | hc
        · rw [hc]; exact h1
        · exact hdig c hc)
    rw [normalize_eq, hf]
    simp [h10, hq]
  · have hq : q = String.mk ('+' :: l) := (Prod.mk.inj h).1.symm
    have hf : q.data.filter (fun c => c.isDigit) = l := by
      rw [hq]; exact filter_digits_plus l hdig
    rw [normalize_eq, hf]
    simp [h11.1, h11.2, hq]
  · have hq : q = String.mk ('+' :: l) := (Prod.mk.inj h).1.symm
    have hf : q.data.filter (fun c => c.isDigit) = l := by
      rw [hq]; exact filter_digits_plus l hdig
    rw [normalize_eq, hf]
    simp only [h10, if_false, h11, h12, if_true, hq]
  · simp at h

/-- Claim C24, the code at the failing inputs: a phone of twelve digits that
starts with 0, and a phone of sixteen digits.  `NormalizePhone` succeeds on
both and returns "+" followed by a leading 0, and "+" followed by 16 digits. -/
theorem normalize_returns_non_e164 :
    NormalizePhone "012345678901" = ("+012345678901", none) ∧
      NormalizePhone "1234567890123456" = ("+1234567890123456", none) ∧
      ("+1234567890123456".drop 1).length = 16 := by
  decide

/-- Claim C26, the code at the failing input: `MaskPhone` keeps the first 4
and the last 4 characters of "+1234567890", which gives "+123***7890" and not
the "+1234***7890" of its doc comment. -/
theorem maskPhone_doc_example :
    MaskPhone "+1234567890" = "+123***7890" ∧
      MaskPhone "+1234567890" ≠ "+1234***7890" ∧
      MaskPhone "+123456" = "+123456" := by
  decide

/-- One round of `Nat.toDigitsCore`. -/
theorem toDigitsCore_step (b fuel n : Nat) (ds : List Char) (hf : 0 < fuel) :
    Nat.toDigitsCore b fuel n ds =
      if n / b = 0 then Nat.digitChar (n % b) :: ds
      else Nat.toDigitsCore b (fuel - 1) (n / b) (Nat.digitChar (n % b) :: ds) := by
  cases fuel with
  | zero => omega
  | succ f => simp [Nat.toDigitsCore]

/-- The character of a digit value is a decimal digit. -/
theorem digitChar_isDigit (x : Nat) (h : x < 10) : (Nat.digitChar x).isDigit = true := by
  interval_cases x <;> decide

/-- The decimal text of a number of six digits. -/
theorem toDigits_six (m : Nat) (hlo : 100000 ≤ m) (hhi : m < 1000000) :
    Nat.toDigits 10 m =
      [Nat.digitChar (m / 10 / 10 / 10 / 10 / 10 % 10),
       Nat.digitChar (m / 10 / 10 / 10 / 10 % 10),
       Nat.digitChar (m / 10 / 10 / 10 % 10),
       Nat.digitChar (m / 10 / 10 % 10),
       Nat.digitChar (m / 10 % 10),
       Nat.digitChar (m % 10)] := by
  unfold Nat.toDigits
  rw [toDigitsCore_step 10 _ m _ (by omega), if_neg (by omega),
    toDigitsCore_step 10 _ _ _ (by omega), if_neg (by omega),
    toDigitsCore_step 10 _ _ _ (by omega), if_neg (by omega),
    toDigitsCore_step 10 _ _ _ (by omega), if_neg (by omega),
    toDigitsCore_step 10 _ _ _ (by omega), if_neg (by omega),
    toDigitsCore_step 10 _ _ _ (by omega), if_pos (by omega)]

/-- `ValidateOTP` accepts every text of six decimal digits. -/
theorem validateOTP_digits (l : List Char) (hlen : l.length = 6)
    (hdig : ∀ c ∈ l, c.isDigit = true) : ValidateOTP (String.mk l) = true := by
  unfold ValidateOTP
  rw [utf8ByteSize_digits l hdig, hlen]
  simp only [ne_eq, not_true_eq_false, if_false, List.all_eq_true]
  intro c hc
  have h := hdig c hc
  simp only [Char.isDigit, Bool.and_eq_true, decide_eq_true_eq] at h
  have h0 : ¬ c < '0' := by
    intro hlt
    have h1 : c.val.toNat < 48 := hlt
    have h2 : 48 ≤ c.val.toNat := h.1
    omega
  have h9 : ¬ c > '9' := by
    intro hgt
    have h1 : 57 < c.val.toNat := hgt
    have h2 : c.val.toNat ≤ 57 := h.2
    omega
  simp [h0, h9]

/-- Claim C25: for every number `rand.Int` can return, below the bound
999999 - 100000, `GenerateOTP` returns a text of exactly 6 characters, each a
decimal digit, which `ValidateOTP` accepts. -/
theorem generateOTP_six_digits (n : Nat) (h : n < randBound) :
    GenerateOTP (some n) = .ok (sprintf06d (n + 100000)) ∧
      (sprintf06d (n + 100000)).length = 6 ∧
      (∀ c ∈ (sprintf06d (n + 100000)).data, c.isDigit = true) ∧
      ValidateOTP (sprintf06d (n + 100000)) = true := by
  have hb : n < 899999 := h
  have hd := toDigits_six (n + 100000) (by omega) (by omega)
  have hs : sprintf06d (n + 100000) = String.mk (Nat.toDigits 10 (n + 100000)) := by
    simp only [sprintf06d, Nat.repr, List.asString, String.length, hd, List.length_cons,
      List.length_nil]
    rfl
  have hdig : ∀ c ∈ Nat.toDigits 10 (n + 100000), c.isDigit = true := by
    rw [hd]
    intro c hc
    simp only [List.mem_cons, List.mem_singleton, List.not_mem_nil, or_false] at hc
    rcases hc with hc | hc | hc | hc | hc | hc <;> rw [hc] <;>
      exact digitChar_isDigit _ (Nat.mod_lt _ (by decide))
  have hlen : (Nat.toDigits 10 (n + 100000)).length = 6 := by rw [hd]; rfl
  refine ⟨rfl, ?_, ?_, ?_⟩
  · rw [hs]; exact hlen
  · rw [hs]; exact hdig
  · rw [hs]; exact validateOTP_digits _ hlen hdig

/-- Witness for C25: the draw 0 gives "100000". -/
theorem generateOTP_six_digits_witness :
    GenerateOTP (some 0) = .ok (sprintf06d (0 + 100000)) ∧
      (sprintf06d (0 + 100000)).length = 6 ∧
      (∀ c ∈ (sprintf06d (0 + 100000)).data, c.isDigit = true) ∧
      ValidateOTP (sprintf06d (0 + 100000)) = true :=
  generateOTP_six_digits 0 (by decide)

/-- After `IncrementRateLimit` on a store that answers, the counter expires
one minute after the call. -/
theorem increment_sets_minute_window (secret phone : String) (s : Store) (now : Nat) :
    (((NewOTPService secret).IncrementRateLimit noFaults s now phone).2 (rateKey phone)).bind
      Entry.expireAt = some (now + Minute) := by
  simp only [OTPService.IncrementRateLimit, noFaults, Redis.Incr, Redis.Expire]
  cases hfind : s.find now (rateKey phone) with
  | none => simp [Store.find, Store.put, Entry.live]
  | some e =>
    have hlive : e.live now = true := by
      unfold Store.find at hfind
      cases hs : s (rateKey phone) with
      | none => simp [hs] at hfind
      | some e2 =>
        simp only [hs] at hfind
        split_ifs at hfind with hl
        simp only [Option.some.injEq] at hfind
        rw [← hfind]; exact hl
    cases hv : e.val.asInt64 with
    | none => simp [hv, hfind, Store.put]
    | some n =>
      by_cases hmax : n = maxInt64
      · simp [hv, hmax, hfind, Store.put]
      · have hlive2 :
            Entry.live { val := .int (n + 1), expireAt := e.expireAt } now = true := hlive
        simp [hv, hmax, Store.find, Store.put, hlive2]

/-- Claim C30: whatever the environment `config.Load` reads, the OTP service
`main` builds has `maxAttempts = 5` and a 5-minute expiry, `IsRateLimited`
compares the counter with 10 and `IncrementRateLimit` sets a one-minute
window; two environments give the same results of `VerifyOTP`,
`IsRateLimited` and `IncrementRateLimit`. -/
theorem config_has_no_effect (environ environ2 : String → String) (flt : Faults)
    (s : Store) (now : Nat) (phone code : String) (e : Entry) (n : Int)
    (hfind : s.find now (rateKey phone) = some e) (hval : e.val.asInt64 = some n) :
    ((mainOTPService environ).maxAttempts = 5 ∧
      (mainOTPService environ).expiry = 5 * Minute) ∧
    ((mainOTPService environ).IsRateLimited noFaults s now phone).1 =
        (decide (10 ≤ n), none) ∧
    (((mainOTPService environ).IncrementRateLimit noFaults s now phone).2
        (rateKey phone)).bind Entry.expireAt = some (now + Minute) ∧
    (mainOTPService environ).VerifyOTP flt s now phone code =
        (mainOTPService environ2).VerifyOTP flt s now phone code ∧
    (mainOTPService environ).IsRateLimited flt s now phone =
        (mainOTPService environ2).IsRateLimited flt s now phone ∧
    (mainOTPService environ).IncrementRateLimit flt s now phone =
        (mainOTPService environ2).IncrementRateLimit flt s now phone := by
  refine ⟨⟨rfl, rfl⟩, ?_, ?_, rfl, rfl, rfl⟩
  · unfold mainOTPService
    rw [isRateLimited_found _ phone s now e n hfind hval]
  · unfold mainOTPService
    exact increment_sets_minute_window _ phone s now

/-- Witness for C30: an environment that asks for 3 attempts and a threshold
of 2 still gives 5 attempts, and a counter at 3 is not limited. -/
theorem config_has_no_effect_witness :
    (mainOTPService (fun k =>
        if k = "MAX_OTP_ATTEMPTS" then "3"
        else if k = "RATE_LIMIT_MAX_REQUESTS" then "2" else "")).maxAttempts = 5 ∧
      ((mainOTPService (fun k =>
        if k = "MAX_OTP_ATTEMPTS" then "3"
        else if k = "RATE_LIMIT_MAX_REQUESTS" then "2" else "")).IsRateLimited noFaults
          (Store.empty.put (rateKey samplePhone) { val := .int 3, expireAt := some 50 })
          40 samplePhone).1 = (decide ((10 : Int) ≤ 3), none) :=
  have h := config_has_no_effect
    (fun k => if k = "MAX_OTP_ATTEMPTS" then "3"
      else if k = "RATE_LIMIT_MAX_REQUESTS" then "2" else "")
    (fun _ => "") noFaults
    (Store.empty.put (rateKey samplePhone) { val := .int 3, expireAt := some 50 })
    40 samplePhone "123456" { val := .int 3, expireAt := some 50 } 3
    (by decide) (by decide)
  ⟨h.1.1, h.2.1⟩

end Identity

namespace Orchestrator

/-- Claim C21: a successful `CreateInvite` at instant `now` adds exactly one
`invites` row, which carries the request's room, phone and role, status
PENDING, `ExpiresAt = now + 7 days` and the invite id and token it returns,
and leaves every other row as it was; the inviter named in the request has
no effect on the outcome. -/
theorem createInvite_adds_pending_row (flt : Faults) (db : DB) (now : Nat)
    (token inviteID inviter : String) (req : CreateInviteRequest)
    (h : (InviteService.CreateInvite flt db now token inviteID req).1.2 = none) :
    InviteService.CreateInvite flt db now token inviteID req =
        ((some { InviteID := inviteID, Token := token, Success := true,
                 Message := "Invite created successfully" }, none),
         { users := db.users,
           rooms := db.rooms,
           room_memberships := db.room_memberships,
           invites := db.invites ++
             [{ ID := inviteID, RoomID := req.RoomID, PhoneE164 := req.Phone,
                Role := req.Role, Token := token, Status := "PENDING",
                ExpiresAt := now + 7 * 24 * Hour, CreatedAt := now }] }) ∧
      7 * 24 * Hour = 7 * 24 * 60 * 60 * 1000000000 ∧
      InviteService.CreateInvite flt db now token inviteID
          { req with InviterUserID := inviter } =
        InviteService.CreateInvite flt db now token inviteID req := by
  refine ⟨?_, by decide, rfl⟩
  rcases createInvite_cases flt db now token inviteID req with hfail | ⟨_, hok⟩
  · exact absurd h hfail.2
  · exact hok

/-- Witness for C21: "u1" invites a second tenant to room "r1" at instant 5. -/
theorem createInvite_adds_pending_row_witness :
    (InviteService.CreateInvite noFaults sampleDB 5 "tok2" "i2"
        { Phone := "+15557654321", Role := "TENANT", InviterUserID := "u1",
          RoomID := "r1" }).2.invites =
      sampleDB.invites ++
        [{ ID := "i2", RoomID := "r1", PhoneE164 := "+15557654321", Role := "TENANT",
           Token := "tok2", Status := "PENDING", ExpiresAt := 5 + 7 * 24 * Hour,
           CreatedAt := 5 }] :=
  congrArg (fun r => r.2.invites)
    (createInvite_adds_pending_row noFaults sampleDB 5 "tok2" "i2" "u9"
      { Phone := "+15557654321", Role := "TENANT", InviterUserID := "u1", RoomID := "r1" }
      (by decide)).1

end Orchestrator

/-! ## Properties of the handlers and of the OTP records' attempts -/

namespace Identity

/-- `IsRateLimited` hands back the keyspace it was given. -/
theorem isRateLimited_store (svc : OTPService) (flt : Faults) (s : Store) (now : Nat)
    (phone : String) : (svc.IsRateLimited flt s now phone).2 = s := by
  simp only [OTPService.IsRateLimited]
  cases hr : (Redis.Get (flt 0) s now (rateKey phone)).Int with
  | err e => rfl
  | nil => rfl
  | ok count =>
    simp only []
    split_ifs <;> rfl

/-- Claim C22: when the phone of a StartOTP request normalizes and
`IsRateLimited` reports true for the normalized phone, the handler answers 429
with error "rate_limited" after that one service call: nothing is generated or
stored, no SMS is sent and the counter is not incremented, the world being as
before. -/
theorem rate_limited_start_stops (h : AuthHandler) (env : Env) (req : OTPRequest)
    (w : World) (p : String)
    (hnorm : NormalizePhone req.Phone = (p, none))
    (hlim : (h.otpService.IsRateLimited env.fltRate w.store env.now p).1 = (true, none)) :
    (h.StartOTP env (.ok req) w).response =
        { status := 429,
          body := .failure { Error := "rate_limited",
                             Message := "Too many OTP requests. Please try again later." } } ∧
      (h.StartOTP env (.ok req) w).calls = [.IsRateLimited p] ∧
      (h.StartOTP env (.ok req) w).world.store = w.store ∧
      (h.StartOTP env (.ok req) w).world.outbox = w.outbox ∧
      (h.StartOTP env (.ok req) w).world.users.byID = w.users.byID ∧
      (h.StartOTP env (.ok req) w).world.users.byHash = w.users.byHash := by
  have hres : h.otpService.IsRateLimited env.fltRate w.store env.now p =
      ((true, none), w.store) := by
    apply Prod.ext hlim
    exact isRateLimited_store _ _ _ _ _
  simp [AuthHandler.StartOTP, hnorm, hres]

/-- Witness for C22: "+15551234567", whose counter stands at 10. -/
theorem rate_limited_start_stops_witness :
    (sampleHandler.StartOTP sampleEnv (.ok { Phone := "+15551234567" }) limitedWorld).response =
        { status := 429,
          body := .failure { Error := "rate_limited",
                             Message := "Too many OTP requests. Please try again later." } } ∧
      (sampleHandler.StartOTP sampleEnv (.ok { Phone := "+15551234567" }) limitedWorld).calls =
        [.IsRateLimited "+15551234567"] :=
  have h := rate_limited_start_stops sampleHandler sampleEnv { Phone := "+15551234567" }
    limitedWorld "+15551234567" (by decide) (by decide)
  ⟨h.1, h.2.1⟩

/-- Claim C23, the code at the failing inputs: the phone "+1234567890" of the
handler tests has ten digits, so `NormalizePhone` puts the country code 1 in
front and both handlers pass "+11234567890" to their services; and the phone
"+33612345678", eleven digits that do not start with 1, is rejected. -/
theorem e164_phone_not_kept :
    NormalizePhone "+1234567890" = ("+11234567890", none) ∧
      (sampleHandler.StartOTP sampleEnv (.ok { Phone := "+1234567890" }) emptyWorld).calls =
        [.IsRateLimited "+11234567890", .GenerateAndStoreOTP "+11234567890",
         .SendOTP "+11234567890" "100000", .IncrementRateLimit "+11234567890"] ∧
      (sampleHandler.VerifyOTP sampleEnv (.ok { Phone := "+1234567890", Code := "100000" })
        (sampleHandler.StartOTP sampleEnv (.ok { Phone := "+1234567890" }) emptyWorld).world).calls =
        [.VerifyOTP "+11234567890" "100000", .CreateUser "+11234567890"] ∧
      (NormalizePhone "+33612345678").2 =
        some (.plain "invalid phone number format: +33612345678") := by
  decide

/-- `VerifyOTP` returns `true` exactly when it returns no error, for every
service, store, instant, phone, code and failure of the store. -/
theorem verify_true_iff_no_error (svc : OTPService) (flt : Faults) (s : Store) (now : Nat)
    (phone code : String) :
    (svc.VerifyOTP flt s now phone code).1.1 = true ↔
      (svc.VerifyOTP flt s now phone code).1.2 = none := by
  simp only [OTPService.VerifyOTP]
  cases hg : Redis.Get (flt 0) s now (otpKey phone) with
  | nil => simp
  | err e => simp
  | ok v =>
    cases hu : unmarshalOTP v with
    | none => simp [hu]
    | some d =>
      simp only [hu]
      split_ifs <;> simp

/-- Claim C28: `VerifyOTP` returns `true` exactly when its error is nil, so it
never returns `(false, nil)`; hence the VerifyOTP handler never answers 401,
and when the verification of a well-formed request fails, by a wrong code or
otherwise, it answers 400 "otp_verification_error" with the error's text,
having called `VerifyOTP` only: no user is created. -/
theorem failed_verification_is_400 (h : AuthHandler) (env : Env)
    (bound : Except String OTPVerifyRequest) (req : OTPVerifyRequest) (w : World)
    (p : String) (flt : Faults) (s : Store) (now : Nat) (phone code : String)
    (hnorm : NormalizePhone req.Phone = (p, none))
    (hcode : ValidateOTP req.Code = true)
    (hfail : (h.otpService.VerifyOTP env.fltVerify w.store env.now p req.Code).1.1 = false) :
    ((h.otpService.VerifyOTP flt s now phone code).1.1 = true ↔
        (h.otpService.VerifyOTP flt s now phone code).1.2 = none) ∧
      (h.otpService.VerifyOTP flt s now phone code).1 ≠ (false, none) ∧
      (h.VerifyOTP env bound w).response.status ≠ 401 ∧
      (∃ err, (h.otpService.VerifyOTP env.fltVerify w.store env.now p req.Code).1.2 = some err ∧
        (h.VerifyOTP env (.ok req) w).response =
          { status := 400,
            body := .failure { Error := "otp_verification_error", Message := err.text } }) ∧
      (h.VerifyOTP env (.ok req) w).calls = [.VerifyOTP p req.Code] ∧
      (h.VerifyOTP env (.ok req) w).world.users.byID = w.users.byID ∧
      (h.VerifyOTP env (.ok req) w).world.users.byHash = w.users.byHash := by
  have hiff := verify_true_iff_no_error h.otpService
  refine ⟨hiff flt s now phone code, ?_, ?_, ?_⟩
  · intro hbad
    have h1 : (h.otpService.VerifyOTP flt s now phone code).1.2 = none := by rw [hbad]
    have h2 := (hiff flt s now phone code).mpr h1
    rw [hbad] at h2
    exact absurd h2 (by decide)
  · unfold AuthHandler.VerifyOTP
    cases bound with
    | error msg => simp
    | ok r =>
      simp only []
      cases hn : NormalizePhone r.Phone with
      | mk q e =>
        cases e with
        | some e => simp
        | none =>
          simp only []
          split_ifs with hv
          · simp
          · have hi := hiff env.fltVerify w.store env.now q r.Code
            cases hr : h.otpService.VerifyOTP env.fltVerify w.store env.now q r.Code with
            | mk res s1 =>
              cases res with
              | mk valid err =>
                rw [hr] at hi
                cases err with
                | some e => simp
                | none =>
                  have hvalid : valid = true := hi.mpr rfl
                  subst hvalid
                  simp only [Bool.not_true, Bool.false_eq_true, if_false]
                  cases h.userService.CreateUser env.sha256hex env.fltUser w.users env.now
                      env.uuid q with
                  | mk cu users1 =>
                    cases cu with
                    | mk u ue =>
                      cases ue with
                      | some e => simp
                      | none => cases u <;> simp
  · have hi := hiff env.fltVerify w.store env.now p req.Code
    cases hr : h.otpService.VerifyOTP env.fltVerify w.store env.now p req.Code with
    | mk res s1 =>
      cases res with
      | mk valid err =>
        rw [hr] at hi hfail
        simp only at hfail hi
        subst hfail
        cases err with
        | none => exact absurd (hi.mpr rfl) (by decide)
        | some e =>
          refine ⟨⟨e, rfl, ?_⟩, ?_, ?_, ?_⟩ <;>
            simp [AuthHandler.VerifyOTP, hnorm, hcode, hr]

/-- Witness for C28: the wrong code "000000" for a phone whose code, issued by
the StartOTP handler, is "100000". -/
theorem failed_verification_is_400_witness :
    (sampleHandler.VerifyOTP sampleEnv (.ok { Phone := "+15551234567", Code := "000000" })
        (sampleHandler.StartOTP sampleEnv (.ok { Phone := "+15551234567" })
          emptyWorld).world).calls = [.VerifyOTP "+15551234567" "000000"] :=
  (failed_verification_is_400 sampleHandler sampleEnv
    (.ok { Phone := "+15551234567", Code := "000000" })
    { Phone := "+15551234567", Code := "000000" }
    (sampleHandler.StartOTP sampleEnv (.ok { Phone := "+15551234567" }) emptyWorld).world
    "+15551234567" noFaults Store.empty 0 "+15551234567" "000000"
    (by decide) (by decide) (by decide)).2.2.2.2.1

/-- Claim C29: `NormalizePhone` returns its own results unchanged; so
`CreateUser`, given the subject `q` the handler verified, normalizes it to `q`
again: it never rejects it, and the user it stores when the digest of `q` is
unknown carries `q` as its phone. -/
theorem normalize_twice_same (p q : String) (svc : UserService)
    (sha256hex : String → String) (flt : Faults) (users : UserStore) (now : Nat)
    (uuid : String)
    (h : NormalizePhone p = (q, none)) :
    NormalizePhone q = (q, none) ∧
      (svc.CreateUser sha256hex flt users now uuid q).1.2 ≠
          some (.plain ("invalid phone number: " ++
            (Error.plain ("invalid phone number format: " ++ q)).text)) ∧
      (users.byHash (HashPhone sha256hex q svc.salt) = none →
        (svc.CreateUser sha256hex noFaults users now uuid q).1 =
            (some { ID := uuid, PhoneE164 := q,
                    PhoneHash := HashPhone sha256hex q svc.salt, CreatedAt := now }, none) ∧
          (svc.CreateUser sha256hex noFaults users now uuid q).2.byID uuid =
            some { ID := uuid, PhoneE164 := q,
                   PhoneHash := HashPhone sha256hex q svc.salt, CreatedAt := now }) := by
  have hq := normalize_idempotent p q h
  refine ⟨hq, ?_, ?_⟩
  · unfold UserService.CreateUser
    simp only [hq]
    cases hg : svc.GetUserByPhoneHash flt users (HashPhone sha256hex q svc.salt) with
    | mk res trips =>
      cases res with
      | mk u e =>
        cases u with
        | none =>
          simp only []
          cases flt trips <;> simp
        | some u =>
          cases e with
          | none => simp
          | some e =>
            simp only []
            cases flt trips <;> simp
  · intro hnone
    simp [UserService.CreateUser, hq, UserService.GetUserByPhoneHash, noFaults, hnone]

/-- Witness for C29: "(555) 123-4567" normalizes to "+15551234567". -/
theorem normalize_twice_same_witness :
    NormalizePhone "+15551234567" = ("+15551234567", none) :=
  (normalize_twice_same "(555) 123-4567" "+15551234567" NewUserService (fun t => t)
    noFaults UserStore.empty 0 "user-1" (by decide)).1

/-- Where a `GenerateAndStoreOTP` call can leave the keyspace: as it was, or
with a record of 0 attempts at the phone's key. -/
theorem issue_store_cases (secret phone : String) (rnd : Option Nat) (flt : Faults)
    (s : Store) (now : Nat) :
    ((NewOTPService secret).GenerateAndStoreOTP rnd flt s now phone).2 = s ∨
    ∃ c x, ((NewOTPService secret).GenerateAndStoreOTP rnd flt s now phone).2 =
      s.put (otpKey phone)
        { val := .otp { Code := c, Attempts := 0, ExpiresAt := now + 5 * Minute,
                        CreatedAt := now },
          expireAt := x } := by
  cases rnd with
  | none => left; simp [OTPService.GenerateAndStoreOTP, GenerateOTP]
  | some n =>
    cases hf : flt 0 with
    | some e => left; simp [OTPService.GenerateAndStoreOTP, GenerateOTP, Redis.Set, hf]
    | none =>
      right
      have h5 : 5 * Minute ≠ 0 := by decide
      refine ⟨sprintf06d (n + 100000), some (now + 5 * Minute), ?_⟩
      simp [OTPService.GenerateAndStoreOTP, GenerateOTP, Redis.Set, hf, NewOTPService, h5]

/-- Where a `VerifyOTP` call can leave the keyspace: as it was, without the
phone's key, or with the record it found, one attempt added to fewer than 5. -/
theorem verify_store_cases (secret phone code : String) (flt : Faults) (s : Store)
    (now : Nat) :
    ((NewOTPService secret).VerifyOTP flt s now phone code).2 = s ∨
    ((NewOTPService secret).VerifyOTP flt s now phone code).2 = s.erase (otpKey phone) ∨
    ∃ e d x, s (otpKey phone) = some e ∧ e.val = .otp d ∧ d.Attempts < 5 ∧
      ((NewOTPService secret).VerifyOTP flt s now phone code).2 =
        s.put (otpKey phone)
          { val := .otp { d with Attempts := d.Attempts + 1 }, expireAt := x } := by
  simp only [OTPService.VerifyOTP, Redis.Get]
  cases hf : flt 0 with
  | some err => left; simp
  | none =>
    cases hfind : s.find now (otpKey phone) with
    | none => left; simp
    | some e =>
      have hraw : s (otpKey phone) = some e := by
        unfold Store.find at hfind
        cases hs : s (otpKey phone) with
        | none => simp [hs] at hfind
        | some e2 =>
          simp only [hs] at hfind
          split_ifs at hfind
          exact hfind
      cases hv : e.val with
      | int n => left; simp [hv, unmarshalOTP]
      | raw t => left; simp [hv, unmarshalOTP]
      | otp d =>
        simp only [hv, unmarshalOTP, NewOTPService, Redis.Del, Redis.Set]
        cases hf1 : flt 1 with
        | some err => left; split_ifs <;> rfl
        | none =>
          simp only []
          by_cases h1 : now > d.ExpiresAt
          · right; left; simp [h1]
          · by_cases h2 : d.Attempts ≥ 5
            · right; left; simp [h1, h2]
            · by_cases h3 : d.Code = code
              · right; left; simp [h1, h2, h3]
              · right; right
                have h5 : 5 * Minute ≠ 0 := by decide
                exact ⟨e, d, some (now + 5 * Minute), hraw, hv, by omega,
                  by simp [h1, h2, h3, h5]⟩

/-- One call keeps every record's attempts between 0 and 5. -/
theorem attemptsBounded_call (secret : String) (s : Store) (c : OTPCall)
    (hs : s.AttemptsBounded) : (Store.call (NewOTPService secret) s c).AttemptsBounded := by
  have herase : ∀ key, (s.erase key).AttemptsBounded := by
    intro key k e d hk hv
    unfold Store.erase at hk
    split_ifs at hk
    exact hs k e d hk hv
  have hput : ∀ key (e0 : Entry),
      (∀ d, e0.val = .otp d → 0 ≤ d.Attempts ∧ d.Attempts ≤ 5) →
      (s.put key e0).AttemptsBounded := by
    intro key e0 h0 k e d hk hv
    unfold Store.put at hk
    split_ifs at hk
    · simp only [Option.some.injEq] at hk
      subst hk
      exact h0 d hv
    · exact hs k e d hk hv
  cases c with
  | issue rnd flt now phone =>
    rcases issue_store_cases secret phone rnd flt s now with h | ⟨c, x, h⟩
    · simp only [Store.call, h]; exact hs
    · simp only [Store.call, h]
      apply hput
      intro d hd
      simp only [RValue.otp.injEq] at hd
      subst hd
      exact ⟨le_refl _, by simp only; omega⟩
  | verify flt now phone code =>
    rcases verify_store_cases secret phone code flt s now with
      h | h | ⟨e, d, x, hraw, hv, hlt, h⟩
    · simp only [Store.call, h]; exact hs
    · simp only [Store.call, h]; exact herase _
    · simp only [Store.call, h]
      apply hput
      intro d2 hd
      simp only [RValue.otp.injEq] at hd
      subst hd
      have := hs _ e d hraw hv
      exact ⟨by simp only; omega, by simp only; omega⟩

/-- Any sequence of calls keeps every record's attempts between 0 and 5. -/
theorem attemptsBounded_calls (secret : String) (cs : List OTPCall) :
    ∀ s : Store, s.AttemptsBounded →
      (Store.calls (NewOTPService secret) s cs).AttemptsBounded := by
  induction cs with
  | nil => intro s h; exact h
  | cons c rest ih =>
    intro s h
    exact ih _ (attemptsBounded_call secret s c h)

/-- `VerifyOTP` on stored text that is no OTP record. -/
theorem verify_not_otp (secret : String) (s : Store) (now : Nat) (phone code : String)
    (e : Entry) (hfind : s.find now (otpKey phone) = some e)
    (hval : unmarshalOTP e.val = none) :
    (NewOTPService secret).VerifyOTP noFaults s now phone code =
      ((false, some (.wrap "failed to unmarshal OTP data" .badJSON)), s) := by
  simp [OTPService.VerifyOTP, Redis.Get, noFaults, hfind, hval]

/-- In a run of `VerifyOTP` calls for one phone, at most `b` reach the
comparison of codes when the stored record, if any, has at least `5 - b`
attempts. -/
theorem verifyAll_compared_le (secret phone : String) (vs : List (Nat × String)) :
    ∀ (s : Store) (b : Nat),
      (∀ e d, s (otpKey phone) = some e → e.val = .otp d → 5 ≤ d.Attempts + b) →
      (((NewOTPService secret).verifyAll s phone vs).1.filter compared).length ≤ b := by
  induction vs with
  | nil => intro s b _; simp [OTPService.verifyAll]
  | cons v rest ih =>
    intro s b hb
    simp only [OTPService.verifyAll]
    cases hfind : s.find v.1 (otpKey phone) with
    | none =>
      rw [verify_absent secret s v.1 phone v.2 hfind]
      have hc : compared (false, some (.plain "OTP not found or expired")) = false := by
        decide
      simp only [List.filter_cons, hc, Bool.false_eq_true, if_false]
      exact ih s b hb
    | some e =>
      have hraw : s (otpKey phone) = some e := by
        unfold Store.find at hfind
        cases hs : s (otpKey phone) with
        | none => simp [hs] at hfind
        | some e2 =>
          simp only [hs] at hfind
          split_ifs at hfind
          exact hfind
      have hvac : ∀ e2 d2, (s.erase (otpKey phone)) (otpKey phone) = some e2 →
          e2.val = .otp d2 → 5 ≤ d2.Attempts + ((0 : Nat) : Int) := by
        intro e2 d2 h2
        simp [Store.erase] at h2
      cases hv : e.val with
      | int n =>
        rw [verify_not_otp secret s v.1 phone v.2 e hfind (by simp [hv, unmarshalOTP])]
        have hc : compared (false, some (.wrap "failed to unmarshal OTP data" .badJSON)) =
            false := by decide
        simp only [List.filter_cons, hc, Bool.false_eq_true, if_false]
        exact ih s b hb
      | raw t =>
        rw [verify_not_otp secret s v.1 phone v.2 e hfind (by simp [hv, unmarshalOTP])]
        have hc : compared (false, some (.wrap "failed to unmarshal OTP data" .badJSON)) =
            false := by decide
        simp only [List.filter_cons, hc, Bool.false_eq_true, if_false]
        exact ih s b hb
      | otp d =>
        rw [verify_found secret s v.1 phone v.2 e d hfind hv]
        have hbd := hb e d hraw hv
        by_cases h1 : v.1 > d.ExpiresAt
        · have hc : compared (false, some (.plain "OTP expired")) = false := by decide
          simp only [h1, if_true, List.filter_cons, hc, Bool.false_eq_true, if_false]
          exact le_trans (ih _ 0 hvac) (Nat.zero_le b)
        · by_cases h2 : d.Attempts ≥ 5
          · have hc : compared (false, some (.plain "max OTP attempts exceeded")) = false := by
              decide
            simp only [h1, h2, if_true, if_false, List.filter_cons, hc, Bool.false_eq_true]
            exact le_trans (ih _ 0 hvac) (Nat.zero_le b)
          · have hb1 : 1 ≤ b := by omega
            by_cases h3 : d.Code = v.2
            · have hc : compared (true, none) = true := by decide
              simp only [h1, h2, h3, if_true, if_false, List.filter_cons, hc, List.length_cons]
              have := ih _ 0 hvac
              omega
            · have hc : compared (false, some (.plain "invalid OTP code")) = true := by decide
              simp only [h1, h2, h3, if_false, List.filter_cons, hc, if_true, List.length_cons]
              have := ih (s.put (otpKey phone)
                { val := .otp { d with Attempts := d.Attempts + 1 },
                  expireAt := some (v.1 + 5 * Minute) }) (b - 1) (by
                    intro e2 d2 h2' hv2
                    simp only [Store.put, if_true, Option.some.injEq] at h2'
                    subst h2'
                    simp only [RValue.otp.injEq] at hv2
                    subst hv2
                    simp only
                    omega)
              omega

/-- Claim C27: in every keyspace reached from the empty one by
`GenerateAndStoreOTP` and `VerifyOTP` calls, whatever the store's failures,
each stored OTP record has between 0 and 5 attempts; hence in any run of
`VerifyOTP` calls for a subject that follows, with no new issuance and a store
that answers, at most 5 calls reach the comparison of the submitted code with
the stored one. -/
theorem attempts_bounded_reachable (secret phone : String) (cs : List OTPCall)
    (vs : List (Nat × String)) :
    (Store.calls (NewOTPService secret) Store.empty cs).AttemptsBounded ∧
      (((NewOTPService secret).verifyAll
        (Store.calls (NewOTPService secret) Store.empty cs) phone vs).1.filter
          compared).length ≤ 5 := by
  have hinv := attemptsBounded_calls secret cs Store.empty (by
    intro k e d hk
    simp [Store.empty] at hk)
  refine ⟨hinv, verifyAll_compared_le secret phone vs _ 5 ?_⟩
  intro e d he hv
  have := hinv _ e d he hv
  omega

end Identity
